import Mathlib

/-!
Verification development for the cojumpendium scraper's discovery-and-fetch
coordination core: the SQLite-backed store (`database.py`), the adaptive rate
limiter (`utils/rate_limiter.py`), the four discovery strategies
(`wayback/cdx.py`, `wayback/calendar.py`, `wayback/fulltext.py`,
`wayback/archive_search.py`) and the fetch coordinator (`wayback/fetcher.py`).

Modelling conventions:
* SQLite tables become Lean lists of row structures; `AUTOINCREMENT` ids are
  threaded through the state (starting at 1, as in SQLite).
* Wall-clock time and all delays are modelled as integers (`Int`); a call to
  `asyncio.sleep(d)` advances the clock by `max d 0` (a negative argument
  returns immediately).
* Network I/O is an oracle supplied as an explicit argument: each request site
  receives a `ReqOutcome` saying whether the HTTP helper raised
  `aiohttp.ClientError` (with an optional `status` attribute), raised some
  other exception, or returned parsed data.  `None` responses and responses
  missing the expected top-level key are both modelled as `Option.none`, since
  the source treats them identically.
* External collaborators (the HTML parser, `hashlib`, the content analyzer)
  appear as parameters; `urllib`'s percent-encoding is abstracted by the
  identity, which only affects the literal URL strings recorded in traces.
* JSON scalar values are modelled by `JVal` (strings and integers suffice for
  every metadata dictionary the source builds).
-/

/-- A JSON scalar value as stored in a metadata dictionary. -/
inductive JVal where
  | s (v : String)
  | n (v : Int)
deriving DecidableEq

/-- One row of the `discovered_urls` table (`database.py`, schema lines 31-43).
`discovered_at` (a database-side timestamp default) is not modelled. -/
structure UrlRow where
  id : Nat
  original_url : String
  archive_url : String
  archive_timestamp : String
  search_phrase : String
  status : String
  content_hash : Option String
  metadata : Option (List (String × JVal))
deriving DecidableEq

/-- One row of the `search_progress` table (`database.py`, lines 60-70).
`updated_at` (database-side timestamp) is not modelled. -/
structure ProgressRow where
  search_phrase : String
  search_method : String
  last_offset : Int
  last_timestamp : Option String
  completed : Bool
deriving DecidableEq

/-- One row of the `request_log` table (`database.py`, lines 73-81). -/
structure LogEntry where
  url : String
  status_code : Int
  success : Bool
deriving DecidableEq

/-- One row of the `media` table (`database.py`, lines 46-57). -/
structure MediaRow where
  url_id : Nat
  media_url : String
  media_type : String
  local_path : Option String
  file_hash : Option String
deriving DecidableEq

/-- The persistent store: the four core tables plus the next
`discovered_urls` AUTOINCREMENT id. -/
structure DB where
  discovered_urls : List UrlRow
  media : List MediaRow
  search_progress : List ProgressRow
  request_log : List LogEntry
  next_url_id : Nat
deriving DecidableEq

/-- A freshly created database (schema only). -/
def DB.empty : DB :=
  { discovered_urls := [], media := [], search_progress := [], request_log := []
    next_url_id := 1 }

/-- `Database.add_discovered_url` (`database.py`, lines 286-318): INSERT into
`discovered_urls`; on a UNIQUE violation of `archive_url` the source looks up
and returns the existing row's id (the `-1` branch is unreachable because the
row that raised the violation is present).  Returns the id as `Int`, matching
the callers' `url_id > 0` tests.  `json.dumps(metadata) if metadata else None`
maps an empty dictionary to NULL. -/
def Database.add_discovered_url (db : DB) (original_url archive_url : String)
    (archive_timestamp search_phrase : String) (content_hash : Option String)
    (metadata : List (String × JVal)) : DB × Int :=
  match db.discovered_urls.find? (fun r => r.archive_url == archive_url) with
  | some r => (db, (r.id : Int))
  | none =>
      let row : UrlRow :=
        { id := db.next_url_id, original_url := original_url
          archive_url := archive_url, archive_timestamp := archive_timestamp
          search_phrase := search_phrase, status := "pending"
          content_hash := content_hash
          metadata := if metadata.isEmpty then none else some metadata }
      ({ db with discovered_urls := db.discovered_urls ++ [row]
                 next_url_id := db.next_url_id + 1 }, (db.next_url_id : Int))

/-- `Database.get_search_progress` (`database.py`, lines 367-383): SELECT the
row for a (phrase, method) pair. -/
def Database.get_search_progress (db : DB) (phrase method : String) :
    Option ProgressRow :=
  db.search_progress.find?
    (fun r => r.search_phrase == phrase && r.search_method == method)

/-- `Database.update_search_progress` (`database.py`, lines 385-414): UPDATE
every row of the (phrase, method) pair, setting all three data fields to the
call's arguments (the Python signature defaults are `last_offset=0`,
`last_timestamp=None`, `completed=False`); INSERT a fresh row when no row was
updated. -/
def Database.update_search_progress (db : DB) (phrase method : String)
    (last_offset : Int) (last_timestamp : Option String) (completed : Bool) :
    DB :=
  let pred := fun (r : ProgressRow) =>
    r.search_phrase == phrase && r.search_method == method
  if (db.search_progress.filter pred).isEmpty then
    { db with search_progress := db.search_progress ++
        [{ search_phrase := phrase, search_method := method
           last_offset := last_offset, last_timestamp := last_timestamp
           completed := completed }] }
  else
    { db with search_progress := db.search_progress.map (fun r =>
        if pred r then
          { r with last_offset := last_offset
                   last_timestamp := last_timestamp, completed := completed }
        else r) }

/-- `Database.log_request` (`database.py`, lines 416-429): append-only insert
into `request_log`. -/
def Database.log_request (db : DB) (url : String) (status_code : Int)
    (success : Bool) : DB :=
  { db with request_log := db.request_log ++
      [{ url := url, status_code := status_code, success := success }] }

/-- `Database.update_discovered_url_status` (`database.py`, lines 343-365):
`if content_hash:` — a `None` or empty-string hash updates the status only. -/
def Database.update_discovered_url_status (db : DB) (url_id : Nat)
    (status : String) (content_hash : Option String) : DB :=
  { db with discovered_urls := db.discovered_urls.map (fun r =>
      if r.id == url_id then
        match content_hash with
        | some h =>
            if h == "" then { r with status := status }
            else { r with status := status, content_hash := some h }
        | none => { r with status := status }
      else r) }

/-- `Database.add_media` (`database.py`, lines 320-341); the strategies and the
fetcher pass no `local_path`/`file_hash`, so `downloaded_at` is NULL. -/
def Database.add_media (db : DB) (url_id : Nat) (media_url media_type : String) :
    DB :=
  { db with media := db.media ++
      [{ url_id := url_id, media_url := media_url, media_type := media_type
         local_path := none, file_hash := none }] }

/-- `Database.get_pending_discovered_urls` (`database.py`, lines 448-462):
the LIMIT clause is appended only `if limit:`, so both `None` and `0` return
every pending row. -/
def Database.get_pending_discovered_urls (db : DB) (limit : Option Nat) :
    List UrlRow :=
  let p := db.discovered_urls.filter (fun r => r.status == "pending")
  match limit with
  | none => p
  | some 0 => p
  | some n => p.take n

/-- Configuration of `AdaptiveRateLimiter` (`utils/rate_limiter.py`,
lines 39-46).  Defaults: 5/15/3/30/600/100/50/180. -/
structure RLConfig where
  min_delay : Int
  max_delay : Int
  jitter : Int
  backoff_base : Int
  backoff_max : Int
  requests_per_hour : Int
  cooldown_every : Nat
  cooldown_duration : Int
deriving DecidableEq

/-- The limiter's default configuration. -/
def RLConfig.default : RLConfig :=
  { min_delay := 5, max_delay := 15, jitter := 3, backoff_base := 30
    backoff_max := 600, requests_per_hour := 100, cooldown_every := 50
    cooldown_duration := 180 }

/-- Mutable state of `AdaptiveRateLimiter` (`utils/rate_limiter.py`,
lines 48-55). -/
structure RLState where
  current_backoff : Int
  requests_this_hour : Int
  hour_start : Int
  request_count : Nat
  last_request_time : Int
  total_requests : Nat
  total_errors : Nat
deriving DecidableEq

/-- The limiter's state right after construction at time `t`. -/
def RLState.init (t : Int) : RLState :=
  { current_backoff := 0, requests_this_hour := 0, hour_start := t
    request_count := 0, last_request_time := 0, total_requests := 0
    total_errors := 0 }

/-- `AdaptiveRateLimiter.on_success` (`utils/rate_limiter.py`, lines 129-138). -/
def AdaptiveRateLimiter.on_success (s : RLState) : RLState :=
  if s.current_backoff > 0 then
    { s with current_backoff := max 0 (s.current_backoff - 10) }
  else s

/-- `AdaptiveRateLimiter.on_error` (`utils/rate_limiter.py`, lines 140-162):
only 403/429/503/504 touch the backoff; every call counts an error. -/
def AdaptiveRateLimiter.on_error (cfg : RLConfig) (s : RLState)
    (status_code : Int) : RLState :=
  let s1 := { s with total_errors := s.total_errors + 1 }
  if status_code == 403 || status_code == 429 || status_code == 503 ||
     status_code == 504 then
    if s1.current_backoff == 0 then
      { s1 with current_backoff := cfg.backoff_base }
    else
      { s1 with current_backoff := min (s1.current_backoff * 2) cfg.backoff_max }
  else s1

/-- `asyncio.sleep d` started at `now`: a negative duration returns
immediately. -/
def sleepAdv (now d : Int) : Int := now + max d 0

/-- `AdaptiveRateLimiter.wait` (`utils/rate_limiter.py`, lines 62-127) as a
pure transition.  `t0` is `time.time()` read once at entry (the source never
refreshes `current_time`), `draw` is the random base delay
`uniform(min_delay, max_delay) + uniform(0, jitter)`.  Returns the new state
and the time at which the call returns; `last_request_time` and (after an
hourly block) `hour_start` are set to that post-sleep clock, as in the
source's trailing `time.time()` reads. -/
def AdaptiveRateLimiter.wait (cfg : RLConfig) (s : RLState) (t0 draw : Int) :
    RLState × Int :=
  let elapsed_hour := t0 - s.hour_start
  let rth0 : Int := if elapsed_hour > 3600 then 0 else s.requests_this_hour
  let hs0 : Int := if elapsed_hour > 3600 then t0 else s.hour_start
  let now1 : Int :=
    if rth0 ≥ cfg.requests_per_hour then sleepAdv t0 (3600 - elapsed_hour)
    else t0
  let rth1 : Int := if rth0 ≥ cfg.requests_per_hour then 0 else rth0
  let hs1 : Int := if rth0 ≥ cfg.requests_per_hour then now1 else hs0
  let rc := s.request_count + 1
  let now2 : Int :=
    if rc % cfg.cooldown_every = 0 then sleepAdv now1 cfg.cooldown_duration
    else now1
  let delay : Int :=
    draw + (if s.current_backoff > 0 then s.current_backoff else 0)
  let now3 : Int :=
    if s.last_request_time > 0 then
      if t0 - s.last_request_time < delay then
        sleepAdv now2 (delay - (t0 - s.last_request_time))
      else now2
    else sleepAdv now2 delay
  ({ s with requests_this_hour := rth1 + 1, hour_start := hs1
            request_count := rc, last_request_time := now3
            total_requests := s.total_requests + 1 }, now3)

/-- `n` consecutive `on_error` calls with the given status code. -/
def iterError (cfg : RLConfig) (code : Int) : Nat → RLState → RLState
  | 0, s => s
  | n + 1, s => AdaptiveRateLimiter.on_error cfg (iterError cfg code n s) code

/-- Python `str.replace` on character lists: leftmost, non-overlapping.
The hypothesis-carrying `if` keeps the recursion structural. -/
def strReplaceAux (pat rep : List Char) : List Char → List Char
  | [] => []
  | c :: cs =>
    if h : 0 < pat.length ∧ pat.isPrefixOf (c :: cs) then
      rep ++ strReplaceAux pat rep ((c :: cs).drop pat.length)
    else
      c :: strReplaceAux pat rep cs
termination_by l => l.length
decreasing_by
  · simp only [List.length_drop, List.length_cons]
    omega
  · simp only [List.length_cons]
    omega

/-- Python `str.replace`.  Every call site in the source replaces a single
space, so the empty-pattern case (in which Python interleaves the replacement)
never arises and is mapped to the identity. -/
def strReplace (s pat rep : String) : String :=
  if pat.data.isEmpty then s else String.mk (strReplaceAux pat.data rep.data s.data)

/-- Python slicing `s[:n]`. -/
def strTake (s : String) (n : Nat) : String := String.mk (s.data.take n)

/-- Python `str.startswith`. -/
def strStartsWith (s p : String) : Bool := p.data.isPrefixOf s.data

/-- Python `str.lower` (the phrases and site URLs in scope are ASCII). -/
def strLower (s : String) : String := String.mk (s.data.map Char.toLower)

/-- Digit run to a number, `none` when empty or containing a non-digit. -/
def digitsToNat (cs : List Char) : Option Nat :=
  if cs.isEmpty then none
  else if cs.all Char.isDigit then
    some (cs.foldl (fun a c => a * 10 + (c.toNat - 48)) 0)
  else none

/-- Python `int(s)` for the strings in scope (optional sign, digits);
`none` models the `ValueError` it raises otherwise. -/
def strToInt (s : String) : Option Int :=
  match s.data with
  | '-' :: rest => (digitsToNat rest).map (fun n => -(n : Int))
  | '+' :: rest => (digitsToNat rest).map (fun n => (n : Int))
  | cs => (digitsToNat cs).map (fun n => (n : Int))

/-- Python `str.zfill` for the non-negative numerals in scope. -/
def zfill (s : String) (width : Nat) : String :=
  String.mk (List.replicate (width - s.length) '0' ++ s.data)

/-- Python `substring in s`. -/
def strContains (s sub : String) : Bool :=
  (List.range (s.data.length + 1)).any (fun i => sub.data.isPrefixOf (s.data.drop i))

/-- `range(lo, hi)` over integers. -/
def intRange (lo hi : Int) : List Int :=
  (List.range (hi - lo).toNat).map (fun i => lo + (i : Int))

/-- An observable side effect of one unit of work: the rate-limiter hooks and
the HTTP request itself (request-log writes live in the `DB`). -/
inductive Event where
  | rlWait
  | httpGet (url : String)
  | rlSuccess
  | rlErr (code : Int)
deriving DecidableEq

/-- The store plus the trace of outward-facing effects. -/
structure World where
  db : DB
  trace : List Event
deriving DecidableEq

/-- Record an effect. -/
def World.emit (w : World) (e : Event) : World :=
  { w with trace := w.trace ++ [e] }

/-- Write a request-log row. -/
def World.logReq (w : World) (url : String) (code : Int) (ok : Bool) : World :=
  { w with db := Database.log_request w.db url code ok }

/-- The oracle's answer for one HTTP request: `aiohttp.ClientError` raised
(with the optional `status` attribute read by `getattr(e, 'status', 500)`),
some other exception raised, or data returned. -/
inductive ReqOutcome (α : Type) where
  | clientError (status : Option Int)
  | otherError
  | ok (data : α)
deriving DecidableEq

/-- Did the request raise? -/
def ReqOutcome.isErr {α : Type} : ReqOutcome α → Bool
  | .ok _ => false
  | _ => true

/-- Configuration read by `CDXScraper` (`wayback/cdx.py`, lines 29-31 and
54/98-99): endpoint, `matchType`, the explicitly configured literal URL
patterns, and the configured year range. -/
structure CdxConfig where
  cdx_url : String
  match_type : String
  url_patterns : List String
  start_year : Int
  end_year : Int
deriving DecidableEq

/-- The query URL built in `_search_pattern` (`wayback/cdx.py`, lines 89-110);
`urllib.parse.urlencode` is abstracted to plain `k=v` joining (none of the
parameter values in scope need percent-escaping for the properties proved
here). -/
def cdxQueryUrl (cfg : CdxConfig) (pat : String) : String :=
  cfg.cdx_url ++ "?url=" ++ pat ++
    "&output=json&collapse=digest&filter=statuscode:200&matchType=" ++
    cfg.match_type ++ "&from=" ++ toString cfg.start_year ++ "0101&to=" ++
    toString cfg.end_year ++ "1231"

/-- `dict(zip(headers, row)).get(key, dflt)`: later duplicate keys override
earlier ones, hence the reversed scan. -/
def recordGet (headers row : List String) (key dflt : String) : String :=
  match ((headers.zip row).reverse).find? (fun p => p.1 == key) with
  | some p => p.2
  | none => dflt

/-- The insertion performed for one accepted CDX record (`wayback/cdx.py`,
lines 144-162).  Returns the database and whether `url_id > 0` counted the
record as discovered. -/
def cdxInsertRow (db : DB) (phrase pat : String) (headers row : List String) :
    DB × Bool :=
  let original_url := recordGet headers row "original" ""
  let timestamp := recordGet headers row "timestamp" ""
  let archive_url := "https://web.archive.org/web/" ++ timestamp ++ "/" ++
    original_url
  let md : List (String × JVal) :=
    [("mimetype", JVal.s (recordGet headers row "mimetype" "")),
     ("statuscode", JVal.s (recordGet headers row "statuscode" "")),
     ("digest", JVal.s (recordGet headers row "digest" "")),
     ("search_method", JVal.s "cdx"),
     ("url_pattern", JVal.s pat)]
  let r := Database.add_discovered_url db original_url archive_url timestamp
    phrase none md
  (r.1, r.2 > 0)

/-- Processing of one CDX result row (`wayback/cdx.py`, lines 133-162): the
client-side date guard `if timestamp and int(timestamp[:8]) > 20111231:
continue` compares against the hardcoded cutoff 20111231.  `none` models the
`ValueError` that `int` raises on a non-numeric slice. -/
def cdxProcessRow (db : DB) (phrase pat : String) (headers row : List String) :
    Option (DB × Bool) :=
  let timestamp := recordGet headers row "timestamp" ""
  if timestamp ≠ "" then
    match strToInt (strTake timestamp 8) with
    | none => none
    | some v =>
        if v > 20111231 then some (db, false)
        else some (cdxInsertRow db phrase pat headers row)
  else some (cdxInsertRow db phrase pat headers row)

/-- The result-row loop of `_search_pattern`; on an escaped exception the rows
inserted so far stay committed, the accumulated count is discarded and the
flag reports that the `except Exception` handler runs. -/
def cdxProcessRows (db : DB) (phrase pat : String) (headers : List String) :
    List (List String) → Int → DB × Int × Bool
  | [], acc => (db, acc, false)
  | row :: rest, acc =>
    match cdxProcessRow db phrase pat headers row with
    | none => (db, acc, true)
    | some (db1, counted) =>
        cdxProcessRows db1 phrase pat headers rest
          (if counted then acc + 1 else acc)

/-- `CDXScraper._search_pattern` (`wayback/cdx.py`, lines 79-177) driven by
one request outcome. -/
def CDXScraper.search_pattern (cfg : CdxConfig)
    (outcome : ReqOutcome (Option (List (List String)))) (w : World)
    (phrase pat : String) : World × Int :=
  let q := cdxQueryUrl cfg pat
  let w1 := (w.emit Event.rlWait).emit (Event.httpGet q)
  match outcome with
  | .clientError st =>
      let code := st.getD 500
      (((w1.emit (Event.rlErr code)).logReq q code false), 0)
  | .otherError => (w1.logReq q 500 false, 0)
  | .ok data =>
      let w2 := (w1.emit Event.rlSuccess).logReq q 200 true
      match data with
      | none => (w2, 0)
      | some json =>
          if json.length < 2 then (w2, 0)
          else
            match json with
            | [] => (w2, 0)
            | headers :: rows =>
                let r := cdxProcessRows w2.db phrase pat headers rows 0
                let w3 := { w2 with db := r.1 }
                if r.2.2 then (w3.logReq q 500 false, 0) else (w3, r.2.1)

/-- The three wildcard patterns derived from the phrase (`wayback/cdx.py`,
lines 62-66). -/
def cdxSearchPatterns (phrase : String) : List String :=
  ["*" ++ strReplace phrase " " "" ++ "*",
   "*" ++ strReplace phrase " " "-" ++ "*",
   "*" ++ strReplace phrase " " "_" ++ "*"]

/-- The pattern loop body of `CDXScraper.search` (`wayback/cdx.py`,
lines 51-77): configured literal URL patterns first (`_search_url_pattern`
delegates to `_search_pattern`), then the wildcard patterns, then the
unconditional `update_search_progress(phrase, 'cdx', completed=True)`.  The
oracle `env` is indexed by the request's position in the combined pattern
list. -/
def cdxRun (cfg : CdxConfig)
    (env : Nat → ReqOutcome (Option (List (List String)))) (w : World)
    (phrase : String) : World × Int :=
  let pats := cfg.url_patterns ++ cdxSearchPatterns phrase
  let r := pats.enum.foldl (fun (acc : World × Int) ip =>
    let s := CDXScraper.search_pattern cfg (env ip.1) acc.1 phrase ip.2
    (s.1, acc.2 + s.2)) (w, 0)
  ({ r.1 with
      db := Database.update_search_progress r.1.db phrase "cdx" 0 none true },
   r.2)

/-- `CDXScraper.search` (`wayback/cdx.py`, lines 33-77): the completed-guard
followed by the pattern loop. -/
def CDXScraper.search (cfg : CdxConfig)
    (env : Nat → ReqOutcome (Option (List (List String)))) (w : World)
    (phrase : String) (resume : Bool) : World × Int :=
  match Database.get_search_progress w.db phrase "cdx" with
  | some pr =>
      if pr.completed && !resume then (w, 0) else cdxRun cfg env w phrase
  | none => cdxRun cfg env w phrase

/-- Configuration read by `FullTextScraper` (`wayback/fulltext.py`,
lines 31-33). -/
structure FtConfig where
  base_url : String
  max_pages : Nat
deriving DecidableEq

/-- One anchor of the parsed results page, as produced by the external HTML
parser: its `href` attribute and its `get_text(strip=True)` text. -/
structure Anchor where
  href : String
  text : String
deriving DecidableEq

/-- Attempted match of `/web/(\d{14})/(.+)` at the head of the character list:
the literal `/web/`, exactly fourteen digits, a slash, then a non-empty run of
non-newline characters (group 2, greedy up to the end of the line). -/
def matchWebAt (cs : List Char) : Option (String × String) :=
  if cs.take 5 = ['/', 'w', 'e', 'b', '/'] then
    let rest := cs.drop 5
    let ts := rest.take 14
    if ts.length = 14 && ts.all Char.isDigit then
      match rest.drop 14 with
      | '/' :: tail =>
          let grp2 := tail.takeWhile (fun c => c ≠ '\n')
          if grp2.isEmpty then none else some (String.mk ts, String.mk grp2)
      | _ => none
    else none
  else none

/-- `re.search` for the compiled pattern `/web/(\d{14})/(.+)`
(`wayback/fulltext.py`, line 122): leftmost match wins. -/
def archivePatternScan : List Char → Option (String × String)
  | [] => none
  | c :: rest =>
      match matchWebAt (c :: rest) with
      | some r => some r
      | none => archivePatternScan rest

/-- `archive_pattern.search(href)` returning (timestamp, original url). -/
def archivePatternSearch (href : String) : Option (String × String) :=
  archivePatternScan href.data

/-- The URL requested for one results page (`wayback/fulltext.py`,
lines 61 and 95); `urllib.parse.quote` is abstracted to the identity. -/
def ftPageUrl (cfg : FtConfig) (phrase : String) (page : Nat) : String :=
  let search_url := cfg.base_url ++ phrase
  if page = 0 then search_url else search_url ++ "&page=" ++ toString page

/-- The anchor loop of `_search_page` (`wayback/fulltext.py`, lines 124-152):
each anchor whose href matches the archive pattern is inserted and counted
whenever the returned `url_id > 0`. -/
def ftProcessAnchor (phrase : String) (page : Nat) (acc : World × Int)
    (a : Anchor) : World × Int :=
  match archivePatternSearch a.href with
  | none => acc
  | some g =>
      let archive_url :=
        if strStartsWith a.href "http" then a.href
        else "https://web.archive.org" ++ a.href
      let md : List (String × JVal) :=
        [("search_method", JVal.s "fulltext"),
         ("page", JVal.n (page : Int)),
         ("link_text", JVal.s (strTake a.text 200))]
      let r := Database.add_discovered_url acc.1.db g.2 archive_url g.1 phrase
        none md
      ({ acc.1 with db := r.1 }, if r.2 > 0 then acc.2 + 1 else acc.2)

/-- `FullTextScraper._search_page` (`wayback/fulltext.py`, lines 83-166).
The `ok` payload is the anchor list the external parser extracts from the
fetched HTML; `none` stands for an empty or missing body (`if not html`). -/
def FullTextScraper.search_page (cfg : FtConfig)
    (outcome : ReqOutcome (Option (List Anchor))) (w : World)
    (phrase : String) (page : Nat) : World × Int :=
  let url := ftPageUrl cfg phrase page
  let w1 := (w.emit Event.rlWait).emit (Event.httpGet url)
  match outcome with
  | .clientError st =>
      let code := st.getD 500
      (((w1.emit (Event.rlErr code)).logReq url code false), 0)
  | .otherError => (w1.logReq url 500 false, 0)
  | .ok data =>
      let w2 := (w1.emit Event.rlSuccess).logReq url 200 true
      match data with
      | none => (w2, 0)
      | some anchors => anchors.foldl (ftProcessAnchor phrase page) (w2, 0)

/-- The page loop of `FullTextScraper.search` (`wayback/fulltext.py`,
lines 63-75): fetch a page, advance the stored offset to `page + 1`, stop as
soon as a page discovers zero URLs.  The fuel argument is the number of
remaining loop iterations, `max_pages - start_page`. -/
def fulltextLoop (cfg : FtConfig) (env : Nat → ReqOutcome (Option (List Anchor)))
    (phrase : String) : Nat → Nat → World → World × Int
  | 0, _, w => (w, 0)
  | fuel + 1, page, w =>
      let r := FullTextScraper.search_page cfg (env page) w phrase page
      let db2 := Database.update_search_progress r.1.db phrase "fulltext"
        ((page : Int) + 1) none false
      let w2 := { r.1 with db := db2 }
      if r.2 = 0 then (w2, 0)
      else
        let rest := fulltextLoop cfg env phrase fuel (page + 1) w2
        (rest.1, r.2 + rest.2)

/-- The tail of `FullTextScraper.search` after the guard: run the page loop
from `start_page`, then `update_search_progress(phrase, 'fulltext',
completed=True)`. -/
def fulltextFinish (cfg : FtConfig)
    (env : Nat → ReqOutcome (Option (List Anchor))) (w : World)
    (phrase : String) (start_page : Nat) : World × Int :=
  let r := fulltextLoop cfg env phrase (cfg.max_pages - start_page) start_page w
  let db2 := Database.update_search_progress r.1.db phrase "fulltext" 0 none true
  ({ r.1 with db := db2 }, r.2)

/-- `FullTextScraper.search` (`wayback/fulltext.py`, lines 35-81): the
completed-guard, the resume offset, the page loop and the completion mark.
The stored offsets are never negative, so `Int.toNat` is faithful to
`range(start_page, max_pages)`. -/
def FullTextScraper.search (cfg : FtConfig)
    (env : Nat → ReqOutcome (Option (List Anchor))) (w : World)
    (phrase : String) (resume : Bool) : World × Int :=
  match Database.get_search_progress w.db phrase "fulltext" with
  | some pr =>
      if pr.completed && !resume then (w, 0)
      else
        fulltextFinish cfg env w phrase
          (if resume then pr.last_offset.toNat else 0)
  | none => fulltextFinish cfg env w phrase 0

/-- Configuration read by `ArchiveSearchScraper` (`wayback/archive_search.py`,
lines 29-33). -/
structure AsConfig where
  search_url : String
  rows : Int
deriving DecidableEq

/-- One document of the advanced-search response, with the `doc.get(..., '')`
defaults already applied. -/
structure AsDoc where
  identifier : String
  title : String
  description : String
  creator : String
  date : String
  mediatype : String
deriving DecidableEq

/-- The `response` object of the advanced-search JSON, with the
`.get('docs', [])` / `.get('numFound', 0)` defaults applied. -/
structure AsResponse where
  docs : List AsDoc
  numFound : Int
deriving DecidableEq

/-- The query URL of `_search_page` (`wayback/archive_search.py`,
lines 93-105); `urlencode` is abstracted to plain joining and the `fl[]`
field list is elided from the recorded string (it never varies per request). -/
def asQueryUrl (cfg : AsConfig) (phrase : String) (page : Nat) : String :=
  cfg.search_url ++ "?q=(" ++ phrase ++ ") OR title:(" ++ phrase ++
    ") OR creator:(" ++ phrase ++ ")&rows=" ++ toString cfg.rows ++
    "&page=" ++ toString (page + 1) ++ "&output=json"

/-- The document loop of `_search_page` (`wayback/archive_search.py`,
lines 132-157). -/
def asProcessDoc (phrase : String) (page : Nat) (acc : World × Int)
    (doc : AsDoc) : World × Int :=
  if doc.identifier = "" then acc
  else
    let item_url := "https://archive.org/details/" ++ doc.identifier
    let md : List (String × JVal) :=
      [("search_method", JVal.s "archive_search"),
       ("title", JVal.s doc.title),
       ("description", JVal.s doc.description),
       ("creator", JVal.s doc.creator),
       ("mediatype", JVal.s doc.mediatype),
       ("page", JVal.n (page : Int))]
    let r := Database.add_discovered_url acc.1.db item_url item_url doc.date
      phrase none md
    ({ acc.1 with db := r.1 }, if r.2 > 0 then acc.2 + 1 else acc.2)

/-- `ArchiveSearchScraper._search_page` (`wayback/archive_search.py`,
lines 83-173), returning (world, discovered, has_more) where
`has_more = (page + 1) * rows < numFound`. -/
def ArchiveSearchScraper.search_page (cfg : AsConfig)
    (outcome : ReqOutcome (Option AsResponse)) (w : World) (phrase : String)
    (page : Nat) : World × Int × Bool :=
  let url := asQueryUrl cfg phrase page
  let w1 := (w.emit Event.rlWait).emit (Event.httpGet url)
  match outcome with
  | .clientError st =>
      let code := st.getD 500
      (((w1.emit (Event.rlErr code)).logReq url code false), 0, false)
  | .otherError => (w1.logReq url 500 false, 0, false)
  | .ok data =>
      let w2 := (w1.emit Event.rlSuccess).logReq url 200 true
      match data with
      | none => (w2, 0, false)
      | some resp =>
          let r := resp.docs.foldl (asProcessDoc phrase page) (w2, 0)
          (r.1, r.2, ((page : Int) + 1) * cfg.rows < resp.numFound)

/-- The `while True` pagination loop of `ArchiveSearchScraper.search`
(`wayback/archive_search.py`, lines 61-75), bounded by a fuel argument
(every property proved here is settled at a finite fuel). -/
def archiveLoop (cfg : AsConfig) (env : Nat → ReqOutcome (Option AsResponse))
    (phrase : String) : Nat → Nat → World → World × Int
  | 0, _, w => (w, 0)
  | fuel + 1, page, w =>
      let r := ArchiveSearchScraper.search_page cfg (env page) w phrase page
      let db2 := Database.update_search_progress r.1.db phrase "archive_search"
        ((page : Int) + 1) none false
      let w2 := { r.1 with db := db2 }
      if !r.2.2 || r.2.1 = 0 then (w2, r.2.1)
      else
        let rest := archiveLoop cfg env phrase fuel (page + 1) w2
        (rest.1, r.2.1 + rest.2)

/-- The tail of `ArchiveSearchScraper.search` after the guard. -/
def archiveFinish (cfg : AsConfig) (env : Nat → ReqOutcome (Option AsResponse))
    (fuel : Nat) (w : World) (phrase : String) (start_page : Nat) :
    World × Int :=
  let r := archiveLoop cfg env phrase fuel start_page w
  let db2 := Database.update_search_progress r.1.db phrase "archive_search" 0
    none true
  ({ r.1 with db := db2 }, r.2)

/-- `ArchiveSearchScraper.search` (`wayback/archive_search.py`, lines 35-81):
the completed-guard, the resume offset and the pagination loop. -/
def ArchiveSearchScraper.search (cfg : AsConfig)
    (env : Nat → ReqOutcome (Option AsResponse)) (fuel : Nat) (w : World)
    (phrase : String) (resume : Bool) : World × Int :=
  match Database.get_search_progress w.db phrase "archive_search" with
  | some pr =>
      if pr.completed && !resume then (w, 0)
      else
        archiveFinish cfg env fuel w phrase
          (if resume then pr.last_offset.toNat else 0)
  | none => archiveFinish cfg env fuel w phrase 0

/-- Configuration read by `CalendarScraper` (`wayback/calendar.py`,
lines 29-30, 54-61 and 74-75): endpoint, configured site list and year range. -/
structure CalConfig where
  calendar_url : String
  sites : List String
  start_year : Int
  end_year : Int
deriving DecidableEq

/-- The site list of `CalendarScraper.search` (`wayback/calendar.py`,
lines 53-69): the configured sites, extended with phrase-derived guesses when
the lowercased, de-spaced phrase contains "bkaraca" or "bora". -/
def calendarSites (cfg : CalConfig) (phrase : String) : List String :=
  let phrase_lower := strReplace (strLower phrase) " " ""
  if strContains phrase_lower "bkaraca" || strContains phrase_lower "bora" then
    cfg.sites ++ ["http://myspace.com/" ++ phrase_lower,
                  "http://facebook.com/" ++ phrase_lower]
  else cfg.sites

/-- The year-level calendar URL (`wayback/calendar.py`, lines 102-103);
`urllib.parse.quote_plus` is abstracted to the identity. -/
def calYearUrl (cfg : CalConfig) (site : String) (year : Int) : String :=
  cfg.calendar_url ++ "?url=" ++ site ++ "&date=" ++ toString year ++
    "&groupby=day"

/-- The day-level capture URL (`wayback/calendar.py`, lines 166-167). -/
def calDayUrl (cfg : CalConfig) (site date : String) : String :=
  cfg.calendar_url ++ "?url=" ++ site ++ "&date=" ++ date

/-- The capture loop of `_search_day_captures` (`wayback/calendar.py`,
lines 188-212): items shorter than two entries are skipped, `item[0]` is the
capture time, zero-filled to six digits and appended to the day. -/
def calProcessCapture (phrase site date : String) (acc : World × Int)
    (item : List Int) : World × Int :=
  match item with
  | t :: _ :: _ =>
      let time_str := zfill (toString t) 6
      let timestamp := date ++ time_str
      let archive_url := "https://web.archive.org/web/" ++ timestamp ++ "/" ++
        site
      let md : List (String × JVal) :=
        [("search_method", JVal.s "calendar"),
         ("date", JVal.s date),
         ("time", JVal.s time_str)]
      let r := Database.add_discovered_url acc.1.db site archive_url timestamp
        phrase none md
      ({ acc.1 with db := r.1 }, if r.2 > 0 then acc.2 + 1 else acc.2)
  | _ => acc

/-- `CalendarScraper._search_day_captures` (`wayback/calendar.py`,
lines 155-227).  Unlike every other unit of work, its generic
`except Exception` handler (lines 225-227) returns without writing a
request-log entry. -/
def CalendarScraper.search_day_captures (cfg : CalConfig)
    (outcome : ReqOutcome (Option (List (List Int)))) (w : World)
    (phrase site date : String) : World × Int :=
  let url := calDayUrl cfg site date
  let w1 := (w.emit Event.rlWait).emit (Event.httpGet url)
  match outcome with
  | .clientError st =>
      let code := st.getD 500
      (((w1.emit (Event.rlErr code)).logReq url code false), 0)
  | .otherError => (w1, 0)
  | .ok data =>
      let w2 := (w1.emit Event.rlSuccess).logReq url 200 true
      match data with
      | none => (w2, 0)
      | some items => items.foldl (calProcessCapture phrase site date) (w2, 0)

/-- The day loop of `_search_site_year` (`wayback/calendar.py`,
lines 127-141): each item's head, when it is a non-empty list, yields the day
string that is drilled into. -/
def calProcessDay (cfg : CalConfig)
    (dayEnv : String → ReqOutcome (Option (List (List Int))))
    (phrase site : String) (acc : World × Int) (item : List (List Int)) :
    World × Int :=
  match item with
  | [] => acc
  | day_data :: _ =>
      match day_data with
      | d0 :: _ =>
          let date_str := toString d0
          let r := CalendarScraper.search_day_captures cfg (dayEnv date_str)
            acc.1 phrase site date_str
          (r.1, acc.2 + r.2)
      | [] => acc

/-- `CalendarScraper._search_site_year` (`wayback/calendar.py`,
lines 91-153): the year-level request followed by the per-day drill-down. -/
def CalendarScraper.search_site_year (cfg : CalConfig)
    (yearOutcome : ReqOutcome (Option (List (List (List Int)))))
    (dayEnv : String → ReqOutcome (Option (List (List Int)))) (w : World)
    (phrase site : String) (year : Int) : World × Int :=
  let url := calYearUrl cfg site year
  let w1 := (w.emit Event.rlWait).emit (Event.httpGet url)
  match yearOutcome with
  | .clientError st =>
      let code := st.getD 500
      (((w1.emit (Event.rlErr code)).logReq url code false), 0)
  | .otherError => (w1.logReq url 500 false, 0)
  | .ok data =>
      let w2 := (w1.emit Event.rlSuccess).logReq url 200 true
      match data with
      | none => (w2, 0)
      | some items => items.foldl (calProcessDay cfg dayEnv phrase site) (w2, 0)

/-- The site × year loop of `CalendarScraper.search` (`wayback/calendar.py`,
lines 71-89) followed by the unconditional completion mark. -/
def calendarRun (cfg : CalConfig)
    (yearEnv : String → Int → ReqOutcome (Option (List (List (List Int)))))
    (dayEnv : String → String → ReqOutcome (Option (List (List Int))))
    (w : World) (phrase : String) : World × Int :=
  let sites := calendarSites cfg phrase
  let years := intRange cfg.start_year (cfg.end_year + 1)
  let r := sites.foldl (fun (acc : World × Int) site =>
    years.foldl (fun (acc2 : World × Int) year =>
      let s := CalendarScraper.search_site_year cfg (yearEnv site year)
        (dayEnv site) acc2.1 phrase site year
      (s.1, acc2.2 + s.2)) acc) (w, 0)
  let db2 := Database.update_search_progress r.1.db phrase "calendar" 0 none
    true
  ({ r.1 with db := db2 }, r.2)

/-- `CalendarScraper.search` (`wayback/calendar.py`, lines 32-89). -/
def CalendarScraper.search (cfg : CalConfig)
    (yearEnv : String → Int → ReqOutcome (Option (List (List (List Int)))))
    (dayEnv : String → String → ReqOutcome (Option (List (List Int))))
    (w : World) (phrase : String) (resume : Bool) : World × Int :=
  match Database.get_search_progress w.db phrase "calendar" with
  | some pr =>
      if pr.completed && !resume then (w, 0)
      else calendarRun cfg yearEnv dayEnv w phrase
  | none => calendarRun cfg yearEnv dayEnv w phrase

/-- A media reference reported by the external content analyzer. -/
structure MediaRef where
  url : String
  mtype : String
deriving DecidableEq

/-- The external content analyzer's findings (`extractors/content.py` is an
external collaborator here): the truthiness-tested `phrases_found` and
`has_media` fields plus the media reference list. -/
structure Analysis where
  phrases_found : List String
  has_media : Bool
  media_urls : List MediaRef
deriving DecidableEq

/-- `PageFetcher.fetch_url` (`wayback/fetcher.py`, lines 83-161).  `hashF`
stands for `hashlib.sha256(...).hexdigest()`, `analyze` for the external
content analyzer (`none` models the analyzer raising, which the generic
`except Exception` handler turns into a failure log entry and an `error`
transition); writing the HTML file to disk is an external effect not
modelled.  Returns the world and the success flag. -/
def PageFetcher.fetch_url (hashF : String → String)
    (analyze : String → String → Option Analysis) (w : World) (rec : UrlRow)
    (outcome : ReqOutcome (Option String)) : World × Bool :=
  let url_id := rec.id
  let archive_url := rec.archive_url
  let w1 := (w.emit Event.rlWait).emit (Event.httpGet archive_url)
  match outcome with
  | .clientError st =>
      let code := st.getD 500
      let w2 := (w1.emit (Event.rlErr code)).logReq archive_url code false
      ({ w2 with
          db := Database.update_discovered_url_status w2.db url_id "error"
            none }, false)
  | .otherError =>
      let w2 := w1.logReq archive_url 500 false
      ({ w2 with
          db := Database.update_discovered_url_status w2.db url_id "error"
            none }, false)
  | .ok html? =>
      let w2 := (w1.emit Event.rlSuccess).logReq archive_url 200 true
      match html? with
      | none =>
          ({ w2 with
              db := Database.update_discovered_url_status w2.db url_id "error"
                none }, false)
      | some html =>
          if html = "" then
            ({ w2 with
                db := Database.update_discovered_url_status w2.db url_id
                  "error" none }, false)
          else
            let content_hash := hashF html
            let w3 := { w2 with
              db := Database.update_discovered_url_status w2.db url_id
                "fetched" (some content_hash) }
            match analyze html archive_url with
            | none =>
                let w4 := w3.logReq archive_url 500 false
                ({ w4 with
                    db := Database.update_discovered_url_status w4.db url_id
                      "error" none }, false)
            | some a =>
                if !a.phrases_found.isEmpty || a.has_media then
                  let dbm := a.media_urls.foldl (fun db m =>
                    Database.add_media db url_id m.url m.mtype) w3.db
                  ({ w3 with
                      db := Database.update_discovered_url_status dbm url_id
                        "analyzed" (some content_hash) }, true)
                else
                  ({ w3 with
                      db := Database.update_discovered_url_status w3.db url_id
                        "analyzed" (some content_hash) }, true)

/-- The statistics dictionary returned by `fetch_pending_urls`. -/
structure FetchStats where
  fetched : Nat
  analyzed : Nat
  errors : Nat
deriving DecidableEq

/-- The entry loop of `PageFetcher.fetch_pending_urls` (`wayback/fetcher.py`,
lines 67-74): a success bumps both `fetched` and `analyzed`, a failure bumps
`errors`; no outcome stops the loop. -/
def fetchLoop (hashF : String → String)
    (analyze : String → String → Option Analysis)
    (outcomes : Nat → ReqOutcome (Option String)) (i : Nat) (w : World) :
    List UrlRow → World × FetchStats
  | [] => (w, { fetched := 0, analyzed := 0, errors := 0 })
  | rec :: rest =>
      let r := PageFetcher.fetch_url hashF analyze w rec (outcomes i)
      let s := fetchLoop hashF analyze outcomes (i + 1) r.1 rest
      if r.2 then
        (s.1, { s.2 with fetched := s.2.fetched + 1
                         analyzed := s.2.analyzed + 1 })
      else (s.1, { s.2 with errors := s.2.errors + 1 })

/-- `PageFetcher.fetch_pending_urls` (`wayback/fetcher.py`, lines 37-81): the
pending list is read once up front; the `i`-th entry's request gets outcome
`outcomes i`. -/
def PageFetcher.fetch_pending_urls (hashF : String → String)
    (analyze : String → String → Option Analysis)
    (outcomes : Nat → ReqOutcome (Option String)) (w : World)
    (limit : Option Nat) : World × FetchStats :=
  fetchLoop hashF analyze outcomes 0 w
    (Database.get_pending_discovered_urls w.db limit)

/-- The arguments of one `add_discovered_url` call. -/
structure InsertReq where
  original_url : String
  archive_url : String
  archive_timestamp : String
  search_phrase : String
  content_hash : Option String
  metadata : List (String × JVal)
deriving DecidableEq

/-- A sequence of Frontier insertions. -/
def runInserts (db : DB) : List InsertReq → DB
  | [] => db
  | q :: rest =>
      runInserts (Database.add_discovered_url db q.original_url q.archive_url
        q.archive_timestamp q.search_phrase q.content_hash q.metadata).1 rest

/-- Rows of the `discovered_urls` table holding a given archive URL. -/
def countArchiveUrl (db : DB) (u : String) : Nat :=
  (db.discovered_urls.filter (fun r => r.archive_url == u)).length

/-- The default CDX configuration (`wayback/cdx.py` lines 29-31, 54, 98-99). -/
def cdxDefaultConfig : CdxConfig :=
  { cdx_url := "https://web.archive.org/cdx/search/cdx", match_type := "domain"
    url_patterns := [], start_year := 2004, end_year := 2011 }

/-- The default full-text configuration (`wayback/fulltext.py` lines 31-33). -/
def ftDefaultConfig : FtConfig :=
  { base_url := "https://web.archive.org/web/*/", max_pages := 50 }

/-- The default advanced-search configuration (`wayback/archive_search.py`
lines 29-31). -/
def asDefaultConfig : AsConfig :=
  { search_url := "https://archive.org/advancedsearch.php", rows := 100 }

/-- The default calendar configuration (`wayback/calendar.py` lines 29-30,
54-61, 74-75). -/
def calDefaultConfig : CalConfig :=
  { calendar_url := "https://web.archive.org/__wb/calendarcaptures/2"
    sites := ["http://myspace.com/cojumdip", "http://purevolume.com/cojumdip",
      "http://soundcloud.com/cojumdip", "http://facebook.com/cojumdip",
      "http://youtube.com/cojumdip", "http://last.fm/music/Cojum+Dip"]
    start_year := 2004, end_year := 2012 }

/-- A Frontier already holding the archive URL that the third anchor of the
claim-C1 scenario resolves to. -/
def c1seedDb : DB :=
  (Database.add_discovered_url DB.empty "http://myspace.com/cojumdip"
    "https://web.archive.org/web/20050101000000/http://myspace.com/cojumdip"
    "20050101000000" "cojum dip" none []).1

/-- Page 1 of the claim-C1 scenario: three matching anchors, of which the
second resolves to the archive URL already present in `c1seedDb`. -/
def c1anchors : List Anchor :=
  [{ href := "/web/20060101000000/http://myspace.com/cojumdip"
     text := "Cojum Dip" },
   { href := "/web/20050101000000/http://myspace.com/cojumdip"
     text := "Cojum Dip" },
   { href := "/web/20070101000000/http://purevolume.com/cojumdip"
     text := "Cojum Dip" }]

/-- The claim-C1 oracle: page 1 has the three anchors, every later page has
none. -/
def c1env : Nat → ReqOutcome (Option (List Anchor)) :=
  fun page =>
    if page = 0 then ReqOutcome.ok (some c1anchors) else ReqOutcome.ok (some [])

/-- The CDX header row (`output=json` responses). -/
def cdxHeaders : List String :=
  ["urlkey", "timestamp", "original", "mimetype", "statuscode", "digest",
   "length"]

/-- The claim-C2 scenario response: one record dated 20120105000000 and one
dated 20091203000000. -/
def c2response : ReqOutcome (Option (List (List String))) :=
  ReqOutcome.ok (some
    [cdxHeaders,
     ["org,myspace)/cojumdip", "20120105000000", "http://myspace.com/cojumdip",
      "text/html", "200", "AAA111", "1000"],
     ["org,myspace)/cojumdip", "20091203000000", "http://myspace.com/cojumdip",
      "text/html", "200", "BBB222", "1000"]])

/-- A response whose single record is dated 20031203000000 — before the
configured 2004 start of `cdxDefaultConfig`. -/
def c2earlyResponse : ReqOutcome (Option (List (List String))) :=
  ReqOutcome.ok (some
    [cdxHeaders,
     ["org,myspace)/cojumdip", "20031203000000", "http://myspace.com/cojumdip",
      "text/html", "200", "CCC333", "1000"]])

/-- A store holding one non-completed full-text progress record at offset 5. -/
def c3db : DB :=
  { DB.empty with search_progress :=
      [{ search_phrase := "cojumdip", search_method := "fulltext"
         last_offset := 5, last_timestamp := none, completed := false }] }

/-- A completed progress row for the given strategy name. -/
def completedRow (method : String) : ProgressRow :=
  { search_phrase := "cojumdip", search_method := method, last_offset := 0
    last_timestamp := none, completed := true }

/-- A store in which the phrase is completed for all four strategies. -/
def c5world : World :=
  { db := { DB.empty with search_progress :=
      [completedRow "cdx", completedRow "fulltext",
       completedRow "archive_search", completedRow "calendar"] }
    trace := [] }

/-- Three insertions: the same archive URL under two phrases, then a second
URL. -/
def c6reqs : List InsertReq :=
  [{ original_url := "http://myspace.com/cojumdip"
     archive_url := "https://web.archive.org/web/20080101000000/http://myspace.com/cojumdip"
     archive_timestamp := "20080101000000", search_phrase := "cojumdip"
     content_hash := none, metadata := [("search_method", JVal.s "cdx")] },
   { original_url := "http://myspace.com/cojumdip"
     archive_url := "https://web.archive.org/web/20080101000000/http://myspace.com/cojumdip"
     archive_timestamp := "20080101000000", search_phrase := "cojum dip"
     content_hash := none, metadata := [("search_method", JVal.s "fulltext")] },
   { original_url := "http://purevolume.com/cojumdip"
     archive_url := "https://web.archive.org/web/20090101000000/http://purevolume.com/cojumdip"
     archive_timestamp := "20090101000000", search_phrase := "cojumdip"
     content_hash := none, metadata := [] }]

/-- A store holding one pending Frontier entry with id 1. -/
def c7world : World :=
  { db := (Database.add_discovered_url DB.empty "http://myspace.com/cojumdip"
      "https://web.archive.org/web/20080101000000/http://myspace.com/cojumdip"
      "20080101000000" "cojumdip" none []).1
    trace := [] }

/-- A stand-in content digest function for witnesses. -/
def c7hash : String → String := fun _ => "deadbeefdeadbeef"

/-- A stand-in analyzer that finds nothing (and never raises). -/
def c7analyze : String → String → Option Analysis :=
  fun _ _ => some { phrases_found := [], has_media := false, media_urls := [] }

/-- An oracle on which every request raises a non-HTTP exception. -/
def envAllRaise {α : Type} : Nat → ReqOutcome α := fun _ => ReqOutcome.otherError

/-- A limiter state whose hourly counter has reached the default quota. -/
def c9state : RLState := { RLState.init 0 with requests_this_hour := 100 }

theorem on_error_throttle_backoff (cfg : RLConfig) (s : RLState) :
    (AdaptiveRateLimiter.on_error cfg s 429).current_backoff =
      if s.current_backoff = 0 then cfg.backoff_base
      else min (s.current_backoff * 2) cfg.backoff_max := by
  by_cases h : s.current_backoff = 0 <;>
    simp [AdaptiveRateLimiter.on_error, h]

theorem on_error_404_backoff (cfg : RLConfig) (s : RLState) :
    (AdaptiveRateLimiter.on_error cfg s 404).current_backoff =
      s.current_backoff := by
  simp [AdaptiveRateLimiter.on_error]

theorem on_success_decay (s : RLState) (h : 0 < s.current_backoff) :
    (AdaptiveRateLimiter.on_success s).current_backoff =
      max 0 (s.current_backoff - 10) := by
  simp [AdaptiveRateLimiter.on_success, h]

theorem iterError_backoff (cfg : RLConfig) (s0 : RLState)
    (h0 : s0.current_backoff = 0) (hbase : 0 < cfg.backoff_base)
    (hle : cfg.backoff_base ≤ cfg.backoff_max) :
    ∀ N : Nat, 1 ≤ N →
      (iterError cfg 429 N s0).current_backoff =
        min (cfg.backoff_base * 2 ^ (N - 1)) cfg.backoff_max := by
  intro N
  induction N with
  | zero => intro h; exact absurd h (by omega)
  | succ n ih =>
    intro _
    rcases Nat.eq_zero_or_pos n with hn | hn
    · subst hn
      show (AdaptiveRateLimiter.on_error cfg (iterError cfg 429 0 s0)
        429).current_backoff = _
      rw [show iterError cfg 429 0 s0 = s0 from rfl,
        on_error_throttle_backoff, if_pos h0]
      simp [min_eq_left hle]
    · have hprev := ih hn
      have hpos : 0 < (iterError cfg 429 n s0).current_backoff := by
        rw [hprev]
        exact lt_min (mul_pos hbase (pow_pos (by norm_num) _))
          (lt_of_lt_of_le hbase hle)
      show (AdaptiveRateLimiter.on_error cfg (iterError cfg 429 n s0)
        429).current_backoff = _
      rw [on_error_throttle_backoff, if_neg (by omega), hprev]
      have hexp : cfg.backoff_base * 2 ^ (n - 1) * 2 =
          cfg.backoff_base * 2 ^ n := by
        rw [mul_assoc, ← pow_succ, show n - 1 + 1 = n from by omega]
      rw [show n + 1 - 1 = n from by omega]
      rcases le_or_lt (cfg.backoff_base * 2 ^ (n - 1)) cfg.backoff_max with
        hc | hc
      · rw [min_eq_left hc, hexp]
      · have hge : cfg.backoff_max ≤ cfg.backoff_base * 2 ^ n := by
          calc cfg.backoff_max ≤ cfg.backoff_base * 2 ^ (n - 1) := hc.le
            _ ≤ cfg.backoff_base * 2 ^ n := by
                apply mul_le_mul_of_nonneg_left _ hbase.le
                exact pow_le_pow_right₀ (by norm_num) (by omega)
        rw [min_eq_right hc.le,
          min_eq_right (by omega : cfg.backoff_max ≤ cfg.backoff_max * 2),
          min_eq_right hge]

/-- Claim C4: starting from zero backoff, after N ≥ 1 consecutive
`on_error(429)` calls the backoff equals
`min (backoff_base * 2 ^ (N - 1)) backoff_max`; a single `on_success` then
reduces it by exactly 10, floored at 0; and `on_error(404)` never changes the
backoff value. -/
theorem C4_backoff_policy (cfg : RLConfig) (s0 : RLState) (N : Nat)
    (h0 : s0.current_backoff = 0) (hN : 1 ≤ N)
    (hbase : 0 < cfg.backoff_base) (hle : cfg.backoff_base ≤ cfg.backoff_max) :
    (iterError cfg 429 N s0).current_backoff =
        min (cfg.backoff_base * 2 ^ (N - 1)) cfg.backoff_max ∧
    (AdaptiveRateLimiter.on_success (iterError cfg 429 N s0)).current_backoff =
        max 0 ((iterError cfg 429 N s0).current_backoff - 10) ∧
    ∀ s : RLState,
      (AdaptiveRateLimiter.on_error cfg s 404).current_backoff =
        s.current_backoff := by
  have h1 := iterError_backoff cfg s0 h0 hbase hle N hN
  refine ⟨h1, ?_, fun s => on_error_404_backoff cfg s⟩
  apply on_success_decay
  rw [h1]
  exact lt_min (mul_pos hbase (pow_pos (by norm_num) _))
    (lt_of_lt_of_le hbase hle)

/-- Witness for C4: the default configuration, starting from a fresh limiter,
with N = 3. -/
theorem C4_backoff_policy_witness :
    (iterError RLConfig.default 429 3 (RLState.init 0)).current_backoff =
      min (RLConfig.default.backoff_base * 2 ^ (3 - 1))
        RLConfig.default.backoff_max :=
  (C4_backoff_policy RLConfig.default (RLState.init 0) 3 rfl (by decide)
    (by decide) (by decide)).1

/-- Claim C9: within the current hour window, a `wait` whose hourly counter is
below the quota proceeds and increments the counter without moving the window;
once the counter has reached the quota, the next `wait` returns no earlier
than the hour boundary, starts the new window exactly at that boundary and
restarts the counter at 1 (the request that then proceeds).  Hence more than
`requests_per_hour` requests never proceed within a single one-hour window. -/
theorem C9_hourly_quota (cfg : RLConfig) (s : RLState) (t0 draw : Int)
    (hwin : t0 - s.hour_start ≤ 3600) :
    (s.requests_this_hour < cfg.requests_per_hour →
      (AdaptiveRateLimiter.wait cfg s t0 draw).1.requests_this_hour =
          s.requests_this_hour + 1 ∧
      (AdaptiveRateLimiter.wait cfg s t0 draw).1.hour_start = s.hour_start) ∧
    (cfg.requests_per_hour ≤ s.requests_this_hour →
      s.hour_start + 3600 ≤ (AdaptiveRateLimiter.wait cfg s t0 draw).2 ∧
      (AdaptiveRateLimiter.wait cfg s t0 draw).1.hour_start =
          s.hour_start + 3600 ∧
      (AdaptiveRateLimiter.wait cfg s t0 draw).1.requests_this_hour = 1) := by
  constructor
  · intro hlt
    simp only [AdaptiveRateLimiter.wait, sleepAdv]
    split_ifs <;> simp_all <;> omega
  · intro hge
    simp only [AdaptiveRateLimiter.wait, sleepAdv]
    split_ifs <;> simp_all <;> omega

/-- Witness for C9: the default quota of 100 has been used up inside the
window, the next call at t = 1800 is pushed to the boundary at 3600. -/
theorem C9_hourly_quota_witness :
    c9state.hour_start + 3600 ≤
      (AdaptiveRateLimiter.wait RLConfig.default c9state 1800 12).2 ∧
    (AdaptiveRateLimiter.wait RLConfig.default c9state 1800 12).1.hour_start =
      c9state.hour_start + 3600 ∧
    (AdaptiveRateLimiter.wait RLConfig.default c9state 1800
      12).1.requests_this_hour = 1 :=
  (C9_hourly_quota RLConfig.default c9state 1800 12 (by decide)).2 (by decide)

theorem find?_append_single {α : Type} (p : α → Bool) (l : List α) (x : α)
    (hx : p x = false) : (l ++ [x]).find? p = l.find? p := by
  induction l with
  | nil => simp [List.find?, hx]
  | cons a t ih =>
    simp only [List.cons_append, List.find?]
    cases p a <;> simp [ih]

theorem find?_append_first {α : Type} (p : α → Bool) (l1 l2 : List α)
    (h : l1.find? p = none) : (l1 ++ l2).find? p = l2.find? p := by
  induction l1 with
  | nil => simp
  | cons a t ih =>
    simp only [List.find?] at h
    simp only [List.cons_append, List.find?]
    cases hpa : p a with
    | true => simp [hpa] at h
    | false =>
      rw [hpa] at h
      exact ih h

theorem find?_map_invariant {α : Type} (p : α → Bool) (f : α → α)
    (l : List α) (hkey : ∀ r, p (f r) = p r)
    (hfix : ∀ r, p r = true → f r = r) :
    (l.map f).find? p = l.find? p := by
  induction l with
  | nil => simp
  | cons a t ih =>
    simp only [List.map_cons, List.find?, hkey a]
    cases hpa : p a with
    | true => rw [hfix a hpa]
    | false => exact ih

theorem countArchiveUrl_eq_zero_iff (db : DB) (u : String) :
    countArchiveUrl db u = 0 ↔
      db.discovered_urls.find? (fun r => r.archive_url == u) = none := by
  simp [countArchiveUrl, List.length_eq_zero, List.filter_eq_nil_iff,
    List.find?_eq_none]


theorem find?_map_of_filter_ne {α : Type} (p : α → Bool) (f : α → α) (x : α)
    (hx : ∀ r, p r = true → f r = x) (hpx : p x = true)
    (hkey : ∀ r, p (f r) = p r) :
    ∀ l : List α, l.filter p ≠ [] → (l.map f).find? p = some x := by
  intro l
  induction l with
  | nil => intro hl; simp at hl
  | cons a t ih =>
    intro hl
    cases hpa : p a with
    | true =>
        simp [List.find?, hkey a, hpa, hx a hpa, hpx]
    | false =>
        have ht : t.filter p ≠ [] := by
          intro hh
          apply hl
          simp [List.filter_cons, hpa, hh]
        simp only [List.map_cons, List.find?, hkey a, hpa]
        exact ih ht

theorem get_upd_same (db : DB) (phrase method : String) (off : Int)
    (ts : Option String) (c : Bool) :
    Database.get_search_progress
        (Database.update_search_progress db phrase method off ts c) phrase
        method =
      some { search_phrase := phrase, search_method := method
             last_offset := off, last_timestamp := ts, completed := c } := by
  unfold Database.get_search_progress Database.update_search_progress
  by_cases hemp : (db.search_progress.filter (fun r =>
      r.search_phrase == phrase && r.search_method == method)).isEmpty
  · rw [if_pos hemp]
    have hnone : db.search_progress.find? (fun r =>
        r.search_phrase == phrase && r.search_method == method) = none := by
      rw [List.find?_eq_none]
      intro x hx
      have := List.filter_eq_nil_iff.mp (List.isEmpty_iff.mp hemp) x hx
      simpa using this
    rw [find?_append_first _ _ _ hnone]
    simp [List.find?]
  · rw [if_neg hemp]
    apply find?_map_of_filter_ne _ _ _ ?hx ?hpx ?hkey
    · intro hh
      exact hemp (by simp [hh])
    case hx =>
      intro r hr
      have h2 : r.search_phrase = phrase ∧ r.search_method = method := by
        simpa using hr
      rw [if_pos hr]
      cases r
      simp_all
    case hpx => simp
    case hkey =>
      intro r
      by_cases hr : (r.search_phrase == phrase && r.search_method == method)
        = true
      · rw [if_pos hr]
      · rw [if_neg hr]

theorem get_upd_other (db : DB) (phrase method p2 m2 : String) (off : Int)
    (ts : Option String) (c : Bool) (hne : ¬(p2 = phrase ∧ m2 = method)) :
    Database.get_search_progress
        (Database.update_search_progress db phrase method off ts c) p2 m2 =
      Database.get_search_progress db p2 m2 := by
  unfold Database.get_search_progress Database.update_search_progress
  by_cases hemp : (db.search_progress.filter (fun r =>
      r.search_phrase == phrase && r.search_method == method)).isEmpty
  · rw [if_pos hemp]
    apply find?_append_single
    by_cases h1 : p2 = phrase
    · have h2 : ¬ m2 = method := fun hm => hne ⟨h1, hm⟩
      have h3 : ¬ method = m2 := fun hm => h2 hm.symm
      simp [h1, h3]
    · have h3 : ¬ phrase = p2 := fun hp => h1 hp.symm
      simp [h3]
  · rw [if_neg hemp]
    apply find?_map_invariant
    · intro r
      by_cases hr : (r.search_phrase == phrase && r.search_method == method)
        = true
      · rw [if_pos hr]
      · rw [if_neg hr]
    · intro r hr
      by_cases hq : (r.search_phrase == phrase && r.search_method == method)
        = true
      · exfalso
        have h1 : r.search_phrase = p2 ∧ r.search_method = m2 := by
          simpa using hr
        have h2 : r.search_phrase = phrase ∧ r.search_method = method := by
          simpa using hq
        exact hne ⟨h1.1 ▸ h2.1, h1.2 ▸ h2.2⟩
      · rw [if_neg hq]

/-- Claim C3 counterexample: the stored full-text record is at offset 5 and
not completed; the strategy's own completion call `update_search_progress
(phrase, 'fulltext', completed=True)` — which leaves `last_offset` and
`last_timestamp` at their Python defaults 0/None — resets the offset to 0
instead of leaving the unspecified field unchanged. -/
theorem C3_counterexample :
    (Database.get_search_progress c3db "cojumdip" "fulltext").map
        (fun r => r.last_offset) = some 5 ∧
    (Database.get_search_progress
        (Database.update_search_progress c3db "cojumdip" "fulltext" 0 none
          true) "cojumdip" "fulltext").map
        (fun r => r.last_offset) = some 0 := by
  constructor <;> rfl

/-- Claim C3 as amended: an update call overwrites all three data fields of
the (phrase, strategy) record with the values passed (unspecified arguments
take the Python defaults offset 0, timestamp NULL, completed false) rather
than leaving them unchanged; records of every other (phrase, strategy) pair
are untouched, and a first call inserts the row with exactly those values. -/
theorem C3_update_overwrites_all_fields (db : DB) (phrase method : String)
    (off : Int) (ts : Option String) (c : Bool) :
    Database.get_search_progress
        (Database.update_search_progress db phrase method off ts c) phrase
        method =
      some { search_phrase := phrase, search_method := method
             last_offset := off, last_timestamp := ts, completed := c } ∧
    ∀ p2 m2 : String, ¬(p2 = phrase ∧ m2 = method) →
      Database.get_search_progress
          (Database.update_search_progress db phrase method off ts c) p2 m2 =
        Database.get_search_progress db p2 m2 :=
  ⟨get_upd_same db phrase method off ts c,
   fun p2 m2 hne => get_upd_other db phrase method p2 m2 off ts c hne⟩

/-- Witness for the amended C3 at the concrete store `c3db`. -/
theorem C3_update_overwrites_all_fields_witness :
    Database.get_search_progress
        (Database.update_search_progress c3db "cojumdip" "fulltext" 7
          (some "20091203000000") true) "cojumdip" "fulltext" =
      some { search_phrase := "cojumdip", search_method := "fulltext"
             last_offset := 7, last_timestamp := some "20091203000000"
             completed := true } ∧
    Database.get_search_progress
        (Database.update_search_progress c3db "cojumdip" "fulltext" 7
          (some "20091203000000") true) "cojumdip" "cdx" =
      Database.get_search_progress c3db "cojumdip" "cdx" :=
  ⟨(C3_update_overwrites_all_fields c3db "cojumdip" "fulltext" 7
      (some "20091203000000") true).1,
   (C3_update_overwrites_all_fields c3db "cojumdip" "fulltext" 7
      (some "20091203000000") true).2 "cojumdip" "cdx" (by simp)⟩

theorem add_discovered_url_keeps (db : DB) (ou au ts ph : String)
    (ch : Option String) (md : List (String × JVal)) (u : String)
    (h : 0 < countArchiveUrl db u) :
    countArchiveUrl (Database.add_discovered_url db ou au ts ph ch md).1 u =
      countArchiveUrl db u ∧
    (Database.add_discovered_url db ou au ts ph ch
        md).1.discovered_urls.find? (fun r => r.archive_url == u) =
      db.discovered_urls.find? (fun r => r.archive_url == u) := by
  cases hf : db.discovered_urls.find? (fun r => r.archive_url == au) with
  | some r => simp [Database.add_discovered_url, hf]
  | none =>
    have hne : au ≠ u := by
      intro he
      subst he
      have := (countArchiveUrl_eq_zero_iff db au).mpr hf
      omega
    have hne2 : (au == u) = false := by simp [hne]
    simp only [Database.add_discovered_url, hf]
    refine ⟨?_, find?_append_single _ _ _ (by simpa using hne2)⟩
    simp [countArchiveUrl, List.filter_append, hne2]

theorem add_discovered_url_absent (db : DB) (ou au ts ph : String)
    (ch : Option String) (md : List (String × JVal)) (u : String)
    (hne : au ≠ u) (h : countArchiveUrl db u = 0) :
    countArchiveUrl (Database.add_discovered_url db ou au ts ph ch md).1 u
      = 0 := by
  cases hf : db.discovered_urls.find? (fun r => r.archive_url == au) with
  | some r => simpa [Database.add_discovered_url, hf] using h
  | none =>
    have hne2 : (au == u) = false := by simp [hne]
    simp only [Database.add_discovered_url, hf]
    simp only [countArchiveUrl] at h ⊢
    simp [List.filter_append, hne2, h]

theorem add_discovered_url_new (db : DB) (ou au ts ph : String)
    (ch : Option String) (md : List (String × JVal))
    (h : countArchiveUrl db au = 0) :
    countArchiveUrl (Database.add_discovered_url db ou au ts ph ch md).1 au
      = 1 ∧
    (Database.add_discovered_url db ou au ts ph ch
        md).1.discovered_urls.find? (fun r => r.archive_url == au) =
      some { id := db.next_url_id, original_url := ou, archive_url := au
             archive_timestamp := ts, search_phrase := ph
             status := "pending", content_hash := ch
             metadata := if md.isEmpty then none else some md } := by
  have hf := (countArchiveUrl_eq_zero_iff db au).mp h
  simp only [Database.add_discovered_url, hf]
  constructor
  · simp only [countArchiveUrl] at h ⊢
    simp [List.filter_append, h]
  · rw [find?_append_first _ _ _ hf]
    simp [List.find?]

theorem runInserts_keeps (u : String) (reqs : List InsertReq) :
    ∀ db : DB, 0 < countArchiveUrl db u →
      countArchiveUrl (runInserts db reqs) u = countArchiveUrl db u ∧
      (runInserts db reqs).discovered_urls.find?
          (fun r => r.archive_url == u) =
        db.discovered_urls.find? (fun r => r.archive_url == u) := by
  induction reqs with
  | nil => intro db h; exact ⟨rfl, rfl⟩
  | cons q rest ih =>
    intro db h
    have hk := add_discovered_url_keeps db q.original_url q.archive_url
      q.archive_timestamp q.search_phrase q.content_hash q.metadata u h
    have h2 : 0 < countArchiveUrl (Database.add_discovered_url db
        q.original_url q.archive_url q.archive_timestamp q.search_phrase
        q.content_hash q.metadata).1 u := by
      rw [hk.1]; exact h
    have hr := ih _ h2
    refine ⟨?_, ?_⟩
    · show countArchiveUrl (runInserts _ rest) u = _
      rw [hr.1, hk.1]
    · show (runInserts _ rest).discovered_urls.find? _ = _
      rw [hr.2, hk.2]

/-- Claim C6: inserting any sequence of discoveries into a Frontier that does
not yet hold archive URL `u`, the final store holds exactly one row for `u`,
and that row carries the original URL, timestamp, phrase and metadata of the
first insertion request for `u` (later insertions are no-ops). -/
theorem C6_frontier_idempotent (u : String) (q : InsertReq)
    (reqs : List InsertReq) :
    ∀ db : DB, countArchiveUrl db u = 0 →
      reqs.find? (fun r => r.archive_url == u) = some q →
      countArchiveUrl (runInserts db reqs) u = 1 ∧
      ∃ row : UrlRow,
        (runInserts db reqs).discovered_urls.find?
            (fun r => r.archive_url == u) = some row ∧
        row.original_url = q.original_url ∧
        row.archive_timestamp = q.archive_timestamp ∧
        row.search_phrase = q.search_phrase ∧
        row.status = "pending" ∧
        row.content_hash = q.content_hash ∧
        row.metadata =
          (if q.metadata.isEmpty then none else some q.metadata) := by
  induction reqs with
  | nil => intro db habs hfind; simp [List.find?] at hfind
  | cons r rest ih =>
    intro db habs hfind
    by_cases hr : (r.archive_url == u) = true
    · have hau : r.archive_url = u := by simpa using hr
      have hq : r = q := by simpa [List.find?, hr] using hfind
      subst hq
      subst hau
      have hnew := add_discovered_url_new db r.original_url r.archive_url
        r.archive_timestamp r.search_phrase r.content_hash r.metadata habs
      have h1 : 0 < countArchiveUrl (Database.add_discovered_url db
          r.original_url r.archive_url r.archive_timestamp r.search_phrase
          r.content_hash r.metadata).1 r.archive_url := by
        rw [hnew.1]; omega
      have hk := runInserts_keeps r.archive_url rest _ h1
      refine ⟨?_, ?_⟩
      · show countArchiveUrl (runInserts _ rest) r.archive_url = 1
        rw [hk.1, hnew.1]
      · exact ⟨_, hk.2.trans hnew.2, rfl, rfl, rfl, rfl, rfl, rfl⟩
    · have hne : r.archive_url ≠ u := by
        intro he
        rw [he] at hr
        simp at hr
      have hfind2 : rest.find? (fun x => x.archive_url == u) = some q := by
        simpa [List.find?, hr] using hfind
      have habs2 := add_discovered_url_absent db r.original_url r.archive_url
        r.archive_timestamp r.search_phrase r.content_hash r.metadata u hne
        habs
      exact ih _ habs2 hfind2

/-- Witness for C6: the two-phrase duplicate scenario `c6reqs` on an empty
store. -/
theorem C6_frontier_idempotent_witness :
    countArchiveUrl (runInserts DB.empty c6reqs)
      "https://web.archive.org/web/20080101000000/http://myspace.com/cojumdip"
      = 1 ∧
    ∃ row : UrlRow,
      (runInserts DB.empty c6reqs).discovered_urls.find?
          (fun r => r.archive_url ==
            "https://web.archive.org/web/20080101000000/http://myspace.com/cojumdip")
          = some row ∧
      row.original_url = (c6reqs.get ⟨0, by decide⟩).original_url ∧
      row.archive_timestamp = (c6reqs.get ⟨0, by decide⟩).archive_timestamp ∧
      row.search_phrase = (c6reqs.get ⟨0, by decide⟩).search_phrase ∧
      row.status = "pending" ∧
      row.content_hash = (c6reqs.get ⟨0, by decide⟩).content_hash ∧
      row.metadata = (if (c6reqs.get ⟨0, by decide⟩).metadata.isEmpty then none
        else some (c6reqs.get ⟨0, by decide⟩).metadata) :=
  C6_frontier_idempotent
    "https://web.archive.org/web/20080101000000/http://myspace.com/cojumdip"
    (c6reqs.get ⟨0, by decide⟩) c6reqs DB.empty rfl (by decide)

@[simp] theorem emit_db (w : World) (e : Event) : (w.emit e).db = w.db := rfl

@[simp] theorem emit_trace (w : World) (e : Event) :
    (w.emit e).trace = w.trace ++ [e] := rfl

@[simp] theorem logReq_db (w : World) (u : String) (c : Int) (s : Bool) :
    (w.logReq u c s).db = Database.log_request w.db u c s := rfl

@[simp] theorem logReq_trace (w : World) (u : String) (c : Int) (s : Bool) :
    (w.logReq u c s).trace = w.trace := rfl

@[simp] theorem log_request_discovered (db : DB) (u : String) (c : Int)
    (s : Bool) :
    (Database.log_request db u c s).discovered_urls = db.discovered_urls := rfl

@[simp] theorem log_request_progress (db : DB) (u : String) (c : Int)
    (s : Bool) :
    (Database.log_request db u c s).search_progress = db.search_progress := rfl

@[simp] theorem log_request_log (db : DB) (u : String) (c : Int) (s : Bool) :
    (Database.log_request db u c s).request_log =
      db.request_log ++ [{ url := u, status_code := c, success := s }] := rfl

@[simp] theorem update_status_request_log (db : DB) (uid : Nat) (st : String)
    (ch : Option String) :
    (Database.update_discovered_url_status db uid st ch).request_log =
      db.request_log := rfl

@[simp] theorem add_media_discovered (db : DB) (uid : Nat) (mu mt : String) :
    (Database.add_media db uid mu mt).discovered_urls =
      db.discovered_urls := rfl

@[simp] theorem add_media_request_log (db : DB) (uid : Nat) (mu mt : String) :
    (Database.add_media db uid mu mt).request_log = db.request_log := rfl

theorem add_discovered_url_request_log (db : DB) (ou au ts ph : String)
    (ch : Option String) (md : List (String × JVal)) :
    (Database.add_discovered_url db ou au ts ph ch md).1.request_log =
      db.request_log := by
  cases hf : db.discovered_urls.find? (fun r => r.archive_url == au) <;>
    simp [Database.add_discovered_url, hf]

/-- Claim C5: for each of the four strategies, a (phrase, strategy) pair whose
Progress Ledger record is completed short-circuits `search(phrase,
resume=false)`: the store and the effect trace are returned unchanged (no
rate-limiter wait, no HTTP request, no request-log write) and the discovered
count is zero. -/
theorem C5_completed_short_circuit :
    (∀ (cfg : CdxConfig) (env : Nat → ReqOutcome (Option (List (List String))))
        (w : World) (phrase : String) (pr : ProgressRow),
      Database.get_search_progress w.db phrase "cdx" = some pr →
      pr.completed = true →
      CDXScraper.search cfg env w phrase false = (w, 0)) ∧
    (∀ (cfg : FtConfig) (env : Nat → ReqOutcome (Option (List Anchor)))
        (w : World) (phrase : String) (pr : ProgressRow),
      Database.get_search_progress w.db phrase "fulltext" = some pr →
      pr.completed = true →
      FullTextScraper.search cfg env w phrase false = (w, 0)) ∧
    (∀ (cfg : AsConfig) (env : Nat → ReqOutcome (Option AsResponse))
        (fuel : Nat) (w : World) (phrase : String) (pr : ProgressRow),
      Database.get_search_progress w.db phrase "archive_search" = some pr →
      pr.completed = true →
      ArchiveSearchScraper.search cfg env fuel w phrase false = (w, 0)) ∧
    (∀ (cfg : CalConfig)
        (yearEnv : String → Int → ReqOutcome (Option (List (List (List Int)))))
        (dayEnv : String → String → ReqOutcome (Option (List (List Int))))
        (w : World) (phrase : String) (pr : ProgressRow),
      Database.get_search_progress w.db phrase "calendar" = some pr →
      pr.completed = true →
      CalendarScraper.search cfg yearEnv dayEnv w phrase false = (w, 0)) := by
  refine ⟨?_, ?_, ?_, ?_⟩
  · intro cfg env w phrase pr hget hc
    simp [CDXScraper.search, hget, hc]
  · intro cfg env w phrase pr hget hc
    simp [FullTextScraper.search, hget, hc]
  · intro cfg env fuel w phrase pr hget hc
    simp [ArchiveSearchScraper.search, hget, hc]
  · intro cfg yearEnv dayEnv w phrase pr hget hc
    simp [CalendarScraper.search, hget, hc]

/-- Witness for C5: the store `c5world` holds completed records for all four
strategies; every strategy returns the world unchanged with count 0, whatever
the oracle would answer. -/
theorem C5_completed_short_circuit_witness :
    CDXScraper.search cdxDefaultConfig envAllRaise c5world "cojumdip" false =
      (c5world, 0) ∧
    FullTextScraper.search ftDefaultConfig envAllRaise c5world "cojumdip"
      false = (c5world, 0) ∧
    ArchiveSearchScraper.search asDefaultConfig envAllRaise 5 c5world
      "cojumdip" false = (c5world, 0) ∧
    CalendarScraper.search calDefaultConfig (fun _ _ => ReqOutcome.otherError)
      (fun _ _ => ReqOutcome.otherError) c5world "cojumdip" false =
      (c5world, 0) :=
  ⟨C5_completed_short_circuit.1 cdxDefaultConfig envAllRaise c5world
      "cojumdip" (completedRow "cdx") rfl rfl,
   C5_completed_short_circuit.2.1 ftDefaultConfig envAllRaise c5world
      "cojumdip" (completedRow "fulltext") rfl rfl,
   C5_completed_short_circuit.2.2.1 asDefaultConfig envAllRaise 5 c5world
      "cojumdip" (completedRow "archive_search") rfl rfl,
   C5_completed_short_circuit.2.2.2 calDefaultConfig
      (fun _ _ => ReqOutcome.otherError) (fun _ _ => ReqOutcome.otherError)
      c5world "cojumdip" (completedRow "calendar") rfl rfl⟩

theorem search_pattern_err_count (cfg : CdxConfig)
    (o : ReqOutcome (Option (List (List String)))) (w : World)
    (phrase pat : String) (h : o.isErr = true) :
    (CDXScraper.search_pattern cfg o w phrase pat).2 = 0 := by
  cases o with
  | clientError st => rfl
  | otherError => rfl
  | ok d => simp [ReqOutcome.isErr] at h

theorem cdxFold_err_count (cfg : CdxConfig)
    (env : Nat → ReqOutcome (Option (List (List String)))) (phrase : String)
    (h : ∀ i, (env i).isErr = true) (l : List (Nat × String)) :
    ∀ (w : World) (acc : Int),
      (l.foldl (fun (a : World × Int) ip =>
        ((CDXScraper.search_pattern cfg (env ip.1) a.1 phrase ip.2).1,
         a.2 + (CDXScraper.search_pattern cfg (env ip.1) a.1 phrase
           ip.2).2)) (w, acc)).2 = acc := by
  induction l with
  | nil => intro w acc; rfl
  | cons ip t ih =>
    intro w acc
    simp only [List.foldl_cons]
    rw [search_pattern_err_count cfg _ _ phrase ip.2 (h ip.1)]
    simpa using ih _ acc

/-- Claim C10: a CDX run whose pattern requests all raise exceptions still
marks the (phrase, 'cdx') pair completed (with the update call's default
offset 0 and NULL timestamp) and reports zero discoveries; every later
non-resume run for the pair then returns the world unchanged with count 0. -/
theorem C10_cdx_completes_on_total_failure (cfg : CdxConfig)
    (env : Nat → ReqOutcome (Option (List (List String)))) (w : World)
    (phrase : String)
    (hpr : ∀ pr : ProgressRow,
      Database.get_search_progress w.db phrase "cdx" = some pr →
      pr.completed = false)
    (herr : ∀ i, (env i).isErr = true) :
    (CDXScraper.search cfg env w phrase false).2 = 0 ∧
    Database.get_search_progress
        (CDXScraper.search cfg env w phrase false).1.db phrase "cdx" =
      some { search_phrase := phrase, search_method := "cdx"
             last_offset := 0, last_timestamp := none, completed := true } ∧
    ∀ env2 : Nat → ReqOutcome (Option (List (List String))),
      CDXScraper.search cfg env2
        (CDXScraper.search cfg env w phrase false).1 phrase false =
      ((CDXScraper.search cfg env w phrase false).1, 0) := by
  have hrun : CDXScraper.search cfg env w phrase false = cdxRun cfg env w
      phrase := by
    cases hg : Database.get_search_progress w.db phrase "cdx" with
    | none => simp [CDXScraper.search, hg]
    | some pr => simp [CDXScraper.search, hg, hpr pr hg]
  have hcount : (cdxRun cfg env w phrase).2 = 0 := by
    simp only [cdxRun]
    exact cdxFold_err_count cfg env phrase herr _ w 0
  have hprog : Database.get_search_progress (cdxRun cfg env w
      phrase).1.db phrase "cdx" =
      some { search_phrase := phrase, search_method := "cdx"
             last_offset := 0, last_timestamp := none, completed := true } := by
    simp only [cdxRun]
    exact get_upd_same _ phrase "cdx" 0 none true
  refine ⟨hrun ▸ hcount, hrun ▸ hprog, ?_⟩
  intro env2
  rw [hrun]
  simp [CDXScraper.search, hprog]

/-- Witness for C10: the default configuration on an empty store, with an
oracle that raises on every request. -/
theorem C10_cdx_completes_on_total_failure_witness :
    (CDXScraper.search cdxDefaultConfig envAllRaise
        { db := DB.empty, trace := [] } "cojumdip" false).2 = 0 ∧
    Database.get_search_progress
        (CDXScraper.search cdxDefaultConfig envAllRaise
          { db := DB.empty, trace := [] } "cojumdip" false).1.db "cojumdip"
        "cdx" =
      some { search_phrase := "cojumdip", search_method := "cdx"
             last_offset := 0, last_timestamp := none, completed := true } ∧
    CDXScraper.search cdxDefaultConfig envAllRaise
        (CDXScraper.search cdxDefaultConfig envAllRaise
          { db := DB.empty, trace := [] } "cojumdip" false).1 "cojumdip"
        false =
      ((CDXScraper.search cdxDefaultConfig envAllRaise
        { db := DB.empty, trace := [] } "cojumdip" false).1, 0) := by
  have h := C10_cdx_completes_on_total_failure cdxDefaultConfig envAllRaise
    { db := DB.empty, trace := [] } "cojumdip"
    (by intro pr hp; cases hp) (fun i => rfl)
  exact ⟨h.1, h.2.1, h.2.2 envAllRaise⟩

/-- Claim C1, evaluated at the failing input: in the FullText scenario (page 1
yields three matching anchors of which one resolves to an archive URL already
present in the Frontier, page 2 yields none) the run does stop after the
second page, but it returns a discovered count of 3, not 2: on a duplicate,
`add_discovered_url` returns the existing row's positive id — contradicting
its own docstring's "URL ID, or -1 if duplicate" — and `_search_page` counts
every positive id.  Only two rows were actually new (three rows total,
including the pre-existing one). -/
theorem C1_duplicate_counted_scenario :
    (FullTextScraper.search ftDefaultConfig c1env
        { db := c1seedDb, trace := [] } "cojumdip" false).2 = 3 ∧
    (FullTextScraper.search ftDefaultConfig c1env
        { db := c1seedDb, trace := [] } "cojumdip"
        false).1.db.discovered_urls.length = 3 ∧
    ((FullTextScraper.search ftDefaultConfig c1env
        { db := c1seedDb, trace := [] } "cojumdip" false).1.trace.countP
      (fun e => match e with | Event.httpGet _ => true | _ => false)) = 2 := by
  refine ⟨?_, ?_, ?_⟩ <;> rfl

/-- Claim C2 counterexample: with the configured range 2004-2011, a CDX
record dated 20031203000000 — outside the configured range, which the claim
says must be discarded — is persisted and counted: the client-side guard only
compares against the hardcoded upper cutoff 20111231 and never checks the
configured lower bound. -/
theorem C2_counterexample :
    ((CDXScraper.search_pattern cdxDefaultConfig c2earlyResponse
        { db := DB.empty, trace := [] } "cojumdip"
        "*cojumdip*").1.db.discovered_urls.map
      (fun r => r.archive_timestamp)) = ["20031203000000"] ∧
    (CDXScraper.search_pattern cdxDefaultConfig c2earlyResponse
        { db := DB.empty, trace := [] } "cojumdip" "*cojumdip*").2 = 1 := by
  constructor <;> rfl

/-- Claim C2 as amended: the client-side guard discards exactly the records
whose non-empty timestamp has first eight digits parsing to a number greater
than the hardcoded cutoff 20111231, independently of the configured year
range; every other record — in particular any record dated before the
configured start year — is passed to the Frontier insert.  For the cited
scenario (range 2004-2011, records dated 20120105000000 and 20091203000000)
only the 2009 record is persisted. -/
theorem C2_hardcoded_upper_date_guard :
    (∀ (db : DB) (phrase pat : String) (headers row : List String) (v : Int),
      recordGet headers row "timestamp" "" ≠ "" →
      strToInt (strTake (recordGet headers row "timestamp" "") 8) = some v →
      (20111231 < v →
        cdxProcessRow db phrase pat headers row = some (db, false)) ∧
      (v ≤ 20111231 →
        cdxProcessRow db phrase pat headers row =
          some (cdxInsertRow db phrase pat headers row))) ∧
    ((CDXScraper.search_pattern cdxDefaultConfig c2response
        { db := DB.empty, trace := [] } "cojumdip"
        "*cojumdip*").1.db.discovered_urls.map
      (fun r => r.archive_timestamp)) = ["20091203000000"] ∧
    (CDXScraper.search_pattern cdxDefaultConfig c2response
        { db := DB.empty, trace := [] } "cojumdip" "*cojumdip*").2 = 1 := by
  refine ⟨?_, by rfl, by rfl⟩
  intro db phrase pat headers row v hts hv
  constructor
  · intro hgt
    simp [cdxProcessRow, hts, hv, hgt]
  · intro hle
    simp [cdxProcessRow, hts, hv, not_lt.mpr hle]

/-- Witness for the amended C2: the 2012 record of the scenario is discarded,
the 2009 record is inserted. -/
theorem C2_hardcoded_upper_date_guard_witness :
    cdxProcessRow DB.empty "cojumdip" "*cojumdip*" cdxHeaders
        ["org,myspace)/cojumdip", "20120105000000",
         "http://myspace.com/cojumdip", "text/html", "200", "AAA111", "1000"] =
      some (DB.empty, false) ∧
    cdxProcessRow DB.empty "cojumdip" "*cojumdip*" cdxHeaders
        ["org,myspace)/cojumdip", "20091203000000",
         "http://myspace.com/cojumdip", "text/html", "200", "BBB222",
         "1000"] =
      some (cdxInsertRow DB.empty "cojumdip" "*cojumdip*" cdxHeaders
        ["org,myspace)/cojumdip", "20091203000000",
         "http://myspace.com/cojumdip", "text/html", "200", "BBB222",
         "1000"]) :=
  ⟨(C2_hardcoded_upper_date_guard.1 DB.empty "cojumdip" "*cojumdip*"
      cdxHeaders
      ["org,myspace)/cojumdip", "20120105000000",
       "http://myspace.com/cojumdip", "text/html", "200", "AAA111", "1000"]
      20120105 (by decide) (by decide)).1 (by decide),
   (C2_hardcoded_upper_date_guard.1 DB.empty "cojumdip" "*cojumdip*"
      cdxHeaders
      ["org,myspace)/cojumdip", "20091203000000",
       "http://myspace.com/cojumdip", "text/html", "200", "BBB222", "1000"]
      20091203 (by decide) (by decide)).2 (by decide)⟩

theorem find?_map_cond {α : Type} (p : α → Bool) (g : α → α) (l : List α)
    (hkey : ∀ r, p (g r) = p r) :
    (l.map (fun r => if p r then g r else r)).find? p = (l.find? p).map g := by
  induction l with
  | nil => simp
  | cons a t ih =>
    by_cases hpa : p a = true
    · simp [List.find?, hpa, hkey a]
    · simp [List.find?, hpa, ih]

theorem update_status_find (db : DB) (uid : Nat) (st : String)
    (ch : Option String) :
    (Database.update_discovered_url_status db uid st
        ch).discovered_urls.find? (fun r => r.id == uid) =
      (db.discovered_urls.find? (fun r => r.id == uid)).map
        (fun r => match ch with
          | some h => if h == "" then { r with status := st }
              else { r with status := st, content_hash := some h }
          | none => { r with status := st }) := by
  show (db.discovered_urls.map _).find? _ = _
  exact find?_map_cond (fun r => r.id == uid)
    (fun r => match ch with
      | some h => if h == "" then { r with status := st }
          else { r with status := st, content_hash := some h }
      | none => { r with status := st }) db.discovered_urls
    (by
      intro r
      cases ch with
      | none => rfl
      | some h => by_cases hh : (h == "") = true <;> simp [hh])

theorem addMediaFold_discovered (uid : Nat) (l : List MediaRef) :
    ∀ db : DB,
      (l.foldl (fun db m => Database.add_media db uid m.url m.mtype)
        db).discovered_urls = db.discovered_urls := by
  induction l with
  | nil => intro db; rfl
  | cons m t ih => intro db; simpa using ih _

theorem fetchLoop_counts (hashF : String → String)
    (analyze : String → String → Option Analysis)
    (outcomes : Nat → ReqOutcome (Option String)) (l : List UrlRow) :
    ∀ (i : Nat) (w : World),
      (fetchLoop hashF analyze outcomes i w l).2.fetched +
          (fetchLoop hashF analyze outcomes i w l).2.errors = l.length ∧
      (fetchLoop hashF analyze outcomes i w l).2.analyzed =
          (fetchLoop hashF analyze outcomes i w l).2.fetched := by
  induction l with
  | nil => intro i w; exact ⟨rfl, rfl⟩
  | cons rec rest ih =>
    intro i w
    obtain ⟨h1, h2⟩ := ih (i + 1)
      (PageFetcher.fetch_url hashF analyze w rec (outcomes i)).1
    cases hr : (PageFetcher.fetch_url hashF analyze w rec (outcomes i)).2
    · simp only [fetchLoop, hr, Bool.false_eq_true, ite_false,
        List.length_cons]
      exact ⟨by omega, by omega⟩
    · simp only [fetchLoop, hr, ite_true, List.length_cons]
      exact ⟨by omega, by omega⟩

/-- Claim C7: per pending entry, a successful non-empty fetch ends in
`analyzed` carrying the computed digest regardless of the analyzer's findings;
an empty (or missing) body ends in `error`; an exception ends in `error` with
a failure request-log entry; and the batch loop processes every pending entry,
each contributing to exactly one of the fetched/errors counters (a failure
does not halt the remaining entries). -/
theorem C7_fetch_transitions (hashF : String → String)
    (analyze : String → String → Option Analysis) :
    (∀ (w : World) (rec : UrlRow) (html : String) (a : Analysis),
      html ≠ "" → hashF html ≠ "" → analyze html rec.archive_url = some a →
      (PageFetcher.fetch_url hashF analyze w rec
          (ReqOutcome.ok (some html))).2 = true ∧
      (PageFetcher.fetch_url hashF analyze w rec
          (ReqOutcome.ok (some html))).1.db.discovered_urls.find?
          (fun r => r.id == rec.id) =
        (w.db.discovered_urls.find? (fun r => r.id == rec.id)).map
          (fun r => { r with status := "analyzed"
                             content_hash := some (hashF html) })) ∧
    (∀ (w : World) (rec : UrlRow),
      (PageFetcher.fetch_url hashF analyze w rec (ReqOutcome.ok none)).2 =
        false ∧
      (PageFetcher.fetch_url hashF analyze w rec
          (ReqOutcome.ok none)).1.db.discovered_urls.find?
          (fun r => r.id == rec.id) =
        (w.db.discovered_urls.find? (fun r => r.id == rec.id)).map
          (fun r => { r with status := "error" })) ∧
    (∀ (w : World) (rec : UrlRow) (st : Option Int),
      (PageFetcher.fetch_url hashF analyze w rec
          (ReqOutcome.clientError st)).2 = false ∧
      (PageFetcher.fetch_url hashF analyze w rec
          (ReqOutcome.clientError st)).1.db.request_log =
        w.db.request_log ++
          [{ url := rec.archive_url, status_code := st.getD 500
             success := false }] ∧
      (PageFetcher.fetch_url hashF analyze w rec
          (ReqOutcome.clientError st)).1.db.discovered_urls.find?
          (fun r => r.id == rec.id) =
        (w.db.discovered_urls.find? (fun r => r.id == rec.id)).map
          (fun r => { r with status := "error" })) ∧
    (∀ (w : World) (rec : UrlRow),
      (PageFetcher.fetch_url hashF analyze w rec
          ReqOutcome.otherError).2 = false ∧
      (PageFetcher.fetch_url hashF analyze w rec
          ReqOutcome.otherError).1.db.request_log =
        w.db.request_log ++
          [{ url := rec.archive_url, status_code := 500, success := false }] ∧
      (PageFetcher.fetch_url hashF analyze w rec
          ReqOutcome.otherError).1.db.discovered_urls.find?
          (fun r => r.id == rec.id) =
        (w.db.discovered_urls.find? (fun r => r.id == rec.id)).map
          (fun r => { r with status := "error" })) ∧
    (∀ (outcomes : Nat → ReqOutcome (Option String)) (w : World)
        (limit : Option Nat),
      (PageFetcher.fetch_pending_urls hashF analyze outcomes w
          limit).2.fetched +
        (PageFetcher.fetch_pending_urls hashF analyze outcomes w
          limit).2.errors =
        (Database.get_pending_discovered_urls w.db limit).length ∧
      (PageFetcher.fetch_pending_urls hashF analyze outcomes w
          limit).2.analyzed =
        (PageFetcher.fetch_pending_urls hashF analyze outcomes w
          limit).2.fetched) := by
  refine ⟨?_, ?_, ?_, ?_, ?_⟩
  · intro w rec html a hhtml hhash hana
    have hne2 : ¬ (hashF html == "") = true := by simp [hhash]
    constructor
    · by_cases hb : (!a.phrases_found.isEmpty || a.has_media) = true
      · simp only [PageFetcher.fetch_url, hhtml, hana, hb, ite_true,
          ite_false, eq_self_iff_true]
      · simp only [PageFetcher.fetch_url, hhtml, hana, hb, ite_true,
          ite_false, eq_self_iff_true, Bool.false_eq_true]
    · by_cases hb : (!a.phrases_found.isEmpty || a.has_media) = true
      · simp only [PageFetcher.fetch_url, hhtml, hana, hb, ite_true,
          ite_false, eq_self_iff_true, emit_db, logReq_db]
        rw [update_status_find, addMediaFold_discovered,
          update_status_find, log_request_discovered, Option.map_map]
        cases w.db.discovered_urls.find? (fun r => r.id == rec.id) <;>
          simp [hne2]
      · simp only [PageFetcher.fetch_url, hhtml, hana, hb, ite_true,
          ite_false, eq_self_iff_true, Bool.false_eq_true, emit_db,
          logReq_db]
        rw [update_status_find, update_status_find, log_request_discovered,
          Option.map_map]
        cases w.db.discovered_urls.find? (fun r => r.id == rec.id) <;>
          simp [hne2]
  · intro w rec
    refine ⟨rfl, ?_⟩
    simp only [PageFetcher.fetch_url, emit_db, logReq_db]
    simp only [update_status_find, log_request_discovered]
  · intro w rec st
    refine ⟨rfl, rfl, ?_⟩
    simp only [PageFetcher.fetch_url, emit_db, logReq_db]
    simp only [update_status_find, log_request_discovered]
  · intro w rec
    refine ⟨rfl, rfl, ?_⟩
    simp only [PageFetcher.fetch_url, emit_db, logReq_db]
    simp only [update_status_find, log_request_discovered]
  · intro outcomes w limit
    exact fetchLoop_counts hashF analyze outcomes
      (Database.get_pending_discovered_urls w.db limit) 0 w

/-- Witness for C7: a successful fetch of the single pending entry of
`c7world` under an analyzer that finds nothing still ends in `analyzed` with
the computed digest. -/
theorem C7_fetch_transitions_witness :
    (PageFetcher.fetch_url c7hash c7analyze c7world
        { id := 1, original_url := "http://myspace.com/cojumdip"
          archive_url := "https://web.archive.org/web/20080101000000/http://myspace.com/cojumdip"
          archive_timestamp := "20080101000000", search_phrase := "cojumdip"
          status := "pending", content_hash := none, metadata := none }
        (ReqOutcome.ok (some "<html>cojum dip</html>"))).2 = true ∧
    (PageFetcher.fetch_url c7hash c7analyze c7world
        { id := 1, original_url := "http://myspace.com/cojumdip"
          archive_url := "https://web.archive.org/web/20080101000000/http://myspace.com/cojumdip"
          archive_timestamp := "20080101000000", search_phrase := "cojumdip"
          status := "pending", content_hash := none, metadata := none }
        (ReqOutcome.ok
          (some "<html>cojum dip</html>"))).1.db.discovered_urls.find?
        (fun r => r.id == (1 : Nat)) =
      (c7world.db.discovered_urls.find? (fun r => r.id == (1 : Nat))).map
        (fun r => { r with status := "analyzed"
                           content_hash :=
                             some (c7hash "<html>cojum dip</html>") }) :=
  (C7_fetch_transitions c7hash c7analyze).1 c7world
    { id := 1, original_url := "http://myspace.com/cojumdip"
      archive_url := "https://web.archive.org/web/20080101000000/http://myspace.com/cojumdip"
      archive_timestamp := "20080101000000", search_phrase := "cojumdip"
      status := "pending", content_hash := none, metadata := none }
    "<html>cojum dip</html>"
    { phrases_found := [], has_media := false, media_urls := [] }
    (by decide) (by decide) rfl

theorem cdxInsertRow_request_log (db : DB) (phrase pat : String)
    (headers row : List String) :
    (cdxInsertRow db phrase pat headers row).1.request_log =
      db.request_log := by
  simp [cdxInsertRow, add_discovered_url_request_log]

theorem cdxProcessRow_request_log (db : DB) (phrase pat : String)
    (headers row : List String) (r : DB × Bool)
    (h : cdxProcessRow db phrase pat headers row = some r) :
    r.1.request_log = db.request_log := by
  simp only [cdxProcessRow] at h
  split at h
  · split at h
    · cases h
    · split at h
      · injection h with h2
        subst h2
        rfl
      · injection h with h2
        subst h2
        exact cdxInsertRow_request_log db phrase pat headers row
  · injection h with h2
    subst h2
    exact cdxInsertRow_request_log db phrase pat headers row

theorem cdxProcessRows_request_log (phrase pat : String)
    (headers : List String) (rows : List (List String)) :
    ∀ (db : DB) (acc : Int),
      (cdxProcessRows db phrase pat headers rows acc).1.request_log =
        db.request_log := by
  induction rows with
  | nil => intro db acc; rfl
  | cons row rest ih =>
    intro db acc
    simp only [cdxProcessRows]
    cases hp : cdxProcessRow db phrase pat headers row with
    | none => rfl
    | some r =>
      obtain ⟨db1, counted⟩ := r
      rw [ih db1]
      exact cdxProcessRow_request_log db phrase pat headers row (db1, counted)
        hp

theorem ftFold_request_log (phrase : String) (page : Nat) (l : List Anchor) :
    ∀ wi : World × Int,
      (l.foldl (ftProcessAnchor phrase page) wi).1.db.request_log =
        wi.1.db.request_log := by
  induction l with
  | nil => intro wi; rfl
  | cons a t ih =>
    intro wi
    rw [List.foldl_cons, ih]
    cases hg : archivePatternSearch a.href with
    | none => simp [ftProcessAnchor, hg]
    | some g => simp [ftProcessAnchor, hg, add_discovered_url_request_log]

theorem asFold_request_log (phrase : String) (page : Nat) (l : List AsDoc) :
    ∀ wi : World × Int,
      (l.foldl (asProcessDoc phrase page) wi).1.db.request_log =
        wi.1.db.request_log := by
  induction l with
  | nil => intro wi; rfl
  | cons doc t ih =>
    intro wi
    rw [List.foldl_cons, ih]
    by_cases hi : doc.identifier = ""
    · simp [asProcessDoc, hi]
    · simp [asProcessDoc, hi, add_discovered_url_request_log]

theorem calCaptureFold_request_log (phrase site date : String)
    (l : List (List Int)) :
    ∀ wi : World × Int,
      (l.foldl (calProcessCapture phrase site date) wi).1.db.request_log =
        wi.1.db.request_log := by
  induction l with
  | nil => intro wi; rfl
  | cons item t ih =>
    intro wi
    rw [List.foldl_cons, ih]
    match item with
    | [] => rfl
    | [t0] => rfl
    | t0 :: t1 :: rest =>
      simp [calProcessCapture, add_discovered_url_request_log]

theorem day_captures_log_append (cfg : CalConfig)
    (o : ReqOutcome (Option (List (List Int)))) (w : World)
    (phrase site date : String) :
    ∃ d : List LogEntry,
      (CalendarScraper.search_day_captures cfg o w phrase site
        date).1.db.request_log = w.db.request_log ++ d := by
  cases o with
  | clientError st =>
    exact ⟨[{ url := calDayUrl cfg site date, status_code := st.getD 500
              success := false }],
      by simp [CalendarScraper.search_day_captures]⟩
  | otherError =>
    exact ⟨[], by simp [CalendarScraper.search_day_captures]⟩
  | ok data =>
    cases data with
    | none =>
      exact ⟨[{ url := calDayUrl cfg site date, status_code := 200
                success := true }],
        by simp [CalendarScraper.search_day_captures]⟩
    | some items =>
      refine ⟨[{ url := calDayUrl cfg site date, status_code := 200
                 success := true }], ?_⟩
      simp only [CalendarScraper.search_day_captures]
      rw [calCaptureFold_request_log]
      simp

theorem calDayFold_log_append (cfg : CalConfig)
    (dayEnv : String → ReqOutcome (Option (List (List Int))))
    (phrase site : String) (items : List (List (List Int))) :
    ∀ wi : World × Int, ∃ d : List LogEntry,
      (items.foldl (calProcessDay cfg dayEnv phrase site)
        wi).1.db.request_log = wi.1.db.request_log ++ d := by
  induction items with
  | nil => intro wi; exact ⟨[], by simp⟩
  | cons item rest ih =>
    intro wi
    rw [List.foldl_cons]
    obtain ⟨d2, hd2⟩ := ih (calProcessDay cfg dayEnv phrase site wi item)
    have h1 : ∃ d1 : List LogEntry,
        (calProcessDay cfg dayEnv phrase site wi item).1.db.request_log =
          wi.1.db.request_log ++ d1 := by
      match item with
      | [] => exact ⟨[], by simp [calProcessDay]⟩
      | [] :: restItem => exact ⟨[], by simp [calProcessDay]⟩
      | (d0 :: ds) :: restItem =>
        obtain ⟨d1, hd1⟩ := day_captures_log_append cfg
          (dayEnv (toString d0)) wi.1 phrase site (toString d0)
        exact ⟨d1, by simp [calProcessDay, hd1]⟩
    obtain ⟨d1, hd1⟩ := h1
    exact ⟨d1 ++ d2, by rw [hd2, hd1, List.append_assoc]⟩

/-- Claim C8 counterexample: a non-HTTP exception during the Calendar
strategy's day-level capture request performs the attempt (the wait and the
HTTP request are on the trace) yet appends no request-log entry — the generic
handler at `calendar.py` lines 225-227 returns without logging. -/
theorem C8_counterexample :
    (CalendarScraper.search_day_captures calDefaultConfig
        ReqOutcome.otherError { db := DB.empty, trace := [] } "cojumdip"
        "http://myspace.com/cojumdip" "20080101").1.trace =
      [Event.rlWait, Event.httpGet (calDayUrl calDefaultConfig
        "http://myspace.com/cojumdip" "20080101")] ∧
    (CalendarScraper.search_day_captures calDefaultConfig
        ReqOutcome.otherError { db := DB.empty, trace := [] } "cojumdip"
        "http://myspace.com/cojumdip" "20080101").1.db.request_log = [] := by
  constructor <;> rfl

/-- Claim C8 as amended: every unit of work of every strategy writes a
request-log entry on every attempt — an entry with the `getattr` status
(default 500) on an HTTP client error, a synthesized 500 on any other
exception, and a 200 success entry (possibly followed by further entries from
nested or failing processing) on a response — with one exception: a non-HTTP
exception during the Calendar strategy's day-level capture request is
absorbed without writing any request-log entry. -/
theorem C8_request_log_per_attempt :
    (∀ (cfg : CdxConfig) (w : World) (phrase pat : String) (st : Option Int),
      (CDXScraper.search_pattern cfg (ReqOutcome.clientError st) w phrase
          pat).1.db.request_log =
        w.db.request_log ++ [LogEntry.mk (cdxQueryUrl cfg pat) (st.getD 500) false]) ∧
    (∀ (cfg : CdxConfig) (w : World) (phrase pat : String),
      (CDXScraper.search_pattern cfg ReqOutcome.otherError w phrase
          pat).1.db.request_log =
        w.db.request_log ++ [LogEntry.mk (cdxQueryUrl cfg pat) (500) false]) ∧
    (∀ (cfg : CdxConfig) (w : World) (phrase pat : String)
        (data : Option (List (List String))),
      ∃ rest : List LogEntry,
        (CDXScraper.search_pattern cfg (ReqOutcome.ok data) w phrase
            pat).1.db.request_log =
          w.db.request_log ++ LogEntry.mk (cdxQueryUrl cfg pat) (200) true :: rest) ∧
    (∀ (cfg : FtConfig) (w : World) (phrase : String) (page : Nat)
        (st : Option Int),
      (FullTextScraper.search_page cfg (ReqOutcome.clientError st) w phrase
          page).1.db.request_log =
        w.db.request_log ++ [LogEntry.mk (ftPageUrl cfg phrase page) (st.getD 500) false]) ∧
    (∀ (cfg : FtConfig) (w : World) (phrase : String) (page : Nat),
      (FullTextScraper.search_page cfg ReqOutcome.otherError w phrase
          page).1.db.request_log =
        w.db.request_log ++ [LogEntry.mk (ftPageUrl cfg phrase page) (500) false]) ∧
    (∀ (cfg : FtConfig) (w : World) (phrase : String) (page : Nat)
        (data : Option (List Anchor)),
      ∃ rest : List LogEntry,
        (FullTextScraper.search_page cfg (ReqOutcome.ok data) w phrase
            page).1.db.request_log =
          w.db.request_log ++ LogEntry.mk (ftPageUrl cfg phrase page) (200) true :: rest) ∧
    (∀ (cfg : AsConfig) (w : World) (phrase : String) (page : Nat)
        (st : Option Int),
      (ArchiveSearchScraper.search_page cfg (ReqOutcome.clientError st) w
          phrase page).1.db.request_log =
        w.db.request_log ++ [LogEntry.mk (asQueryUrl cfg phrase page) (st.getD 500) false]) ∧
    (∀ (cfg : AsConfig) (w : World) (phrase : String) (page : Nat),
      (ArchiveSearchScraper.search_page cfg ReqOutcome.otherError w phrase
          page).1.db.request_log =
        w.db.request_log ++ [LogEntry.mk (asQueryUrl cfg phrase page) (500) false]) ∧
    (∀ (cfg : AsConfig) (w : World) (phrase : String) (page : Nat)
        (data : Option AsResponse),
      ∃ rest : List LogEntry,
        (ArchiveSearchScraper.search_page cfg (ReqOutcome.ok data) w phrase
            page).1.db.request_log =
          w.db.request_log ++ LogEntry.mk (asQueryUrl cfg phrase page) (200) true :: rest) ∧
    (∀ (cfg : CalConfig)
        (dayEnv : String → ReqOutcome (Option (List (List Int))))
        (w : World) (phrase site : String) (year : Int) (st : Option Int),
      (CalendarScraper.search_site_year cfg (ReqOutcome.clientError st)
          dayEnv w phrase site year).1.db.request_log =
        w.db.request_log ++ [LogEntry.mk (calYearUrl cfg site year) (st.getD 500) false]) ∧
    (∀ (cfg : CalConfig)
        (dayEnv : String → ReqOutcome (Option (List (List Int))))
        (w : World) (phrase site : String) (year : Int),
      (CalendarScraper.search_site_year cfg ReqOutcome.otherError dayEnv w
          phrase site year).1.db.request_log =
        w.db.request_log ++ [LogEntry.mk (calYearUrl cfg site year) (500) false]) ∧
    (∀ (cfg : CalConfig)
        (dayEnv : String → ReqOutcome (Option (List (List Int))))
        (w : World) (phrase site : String) (year : Int)
        (data : Option (List (List (List Int)))),
      ∃ rest : List LogEntry,
        (CalendarScraper.search_site_year cfg (ReqOutcome.ok data) dayEnv w
            phrase site year).1.db.request_log =
          w.db.request_log ++ LogEntry.mk (calYearUrl cfg site year) (200) true :: rest) ∧
    (∀ (cfg : CalConfig) (w : World) (phrase site date : String)
        (st : Option Int),
      (CalendarScraper.search_day_captures cfg (ReqOutcome.clientError st) w
          phrase site date).1.db.request_log =
        w.db.request_log ++ [LogEntry.mk (calDayUrl cfg site date) (st.getD 500) false]) ∧
    (∀ (cfg : CalConfig) (w : World) (phrase site date : String)
        (data : Option (List (List Int))),
      ∃ rest : List LogEntry,
        (CalendarScraper.search_day_captures cfg (ReqOutcome.ok data) w
            phrase site date).1.db.request_log =
          w.db.request_log ++ LogEntry.mk (calDayUrl cfg site date) (200) true :: rest) ∧
    (∀ (cfg : CalConfig) (w : World) (phrase site date : String),
      (CalendarScraper.search_day_captures cfg ReqOutcome.otherError w phrase
          site date).1.db.request_log = w.db.request_log) := by
  refine ⟨?_, ?_, ?_, ?_, ?_, ?_, ?_, ?_, ?_, ?_, ?_, ?_, ?_, ?_, ?_⟩
  · intro cfg w phrase pat st
    simp [CDXScraper.search_pattern]
  · intro cfg w phrase pat
    simp [CDXScraper.search_pattern]
  · intro cfg w phrase pat data
    cases data with
    | none => exact ⟨[], by simp [CDXScraper.search_pattern]⟩
    | some json =>
      by_cases hlen : json.length < 2
      · exact ⟨[], by simp [CDXScraper.search_pattern, hlen]⟩
      · match json, hlen with
        | [], hlen => exact absurd (by norm_num) hlen
        | headers :: rows, hlen =>
          cases hexn : (cdxProcessRows (Database.log_request w.db
              (cdxQueryUrl cfg pat) 200 true) phrase pat headers rows
              0).2.2 with
          | true =>
            refine ⟨[{ url := cdxQueryUrl cfg pat, status_code := 500
                       success := false }], ?_⟩
            simp only [CDXScraper.search_pattern, hlen, ite_true, ite_false,
              emit_db, logReq_db, hexn, log_request_log]
            rw [cdxProcessRows_request_log]
            simp
          | false =>
            refine ⟨[], ?_⟩
            simp only [CDXScraper.search_pattern, hlen, ite_true, ite_false,
              emit_db, logReq_db, hexn, Bool.false_eq_true]
            rw [cdxProcessRows_request_log]
            simp
  · intro cfg w phrase page st
    simp [FullTextScraper.search_page]
  · intro cfg w phrase page
    simp [FullTextScraper.search_page]
  · intro cfg w phrase page data
    cases data with
    | none => exact ⟨[], by simp [FullTextScraper.search_page]⟩
    | some anchors =>
      refine ⟨[], ?_⟩
      simp only [FullTextScraper.search_page]
      rw [ftFold_request_log]
      simp
  · intro cfg w phrase page st
    simp [ArchiveSearchScraper.search_page]
  · intro cfg w phrase page
    simp [ArchiveSearchScraper.search_page]
  · intro cfg w phrase page data
    cases data with
    | none => exact ⟨[], by simp [ArchiveSearchScraper.search_page]⟩
    | some resp =>
      refine ⟨[], ?_⟩
      simp only [ArchiveSearchScraper.search_page]
      rw [asFold_request_log]
      simp
  · intro cfg dayEnv w phrase site year st
    simp [CalendarScraper.search_site_year]
  · intro cfg dayEnv w phrase site year
    simp [CalendarScraper.search_site_year]
  · intro cfg dayEnv w phrase site year data
    cases data with
    | none => exact ⟨[], by simp [CalendarScraper.search_site_year]⟩
    | some items =>
      obtain ⟨d, hd⟩ := calDayFold_log_append cfg dayEnv phrase site items
        ((((w.emit Event.rlWait).emit (Event.httpGet (calYearUrl cfg site
          year))).emit Event.rlSuccess).logReq (calYearUrl cfg site year) 200
          true, 0)
      refine ⟨d, ?_⟩
      simp only [CalendarScraper.search_site_year]
      rw [hd]
      simp
  · intro cfg w phrase site date st
    simp [CalendarScraper.search_day_captures]
  · intro cfg w phrase site date data
    cases data with
    | none => exact ⟨[], by simp [CalendarScraper.search_day_captures]⟩
    | some items =>
      refine ⟨[], ?_⟩
      simp only [CalendarScraper.search_day_captures]
      rw [calCaptureFold_request_log]
      simp
  · intro cfg w phrase site date
    rfl
